import Mathlib

/-!
# pack: project descriptor validation, task keys and builder creation

A shallow embedding of

* `project/project.go` (`validate`, `ReadProjectDescriptor`),
* `taskKey` of `acceptance/acceptance_test.go`,
* `CreateBuilder`, whose implementation file is not among the sources and is
  modelled from the specification and from `create_builder_test.go`.

Go strings are Lean `String`s, a Go `error` is an `Option String` holding the
message (`none` is `nil`), and a nil-able slice is an `Option (List _)`.
-/

/-! ## project/project.go -/

namespace dist

/-- Modelled from the spec: the type `dist.License` (package `internal/dist`
is not among the sources); a license carries the two strings `type` and `uri`
that `validate` reads (`Type` is written `Type_`, the word being reserved). -/
structure License where
  Type_ : String := ""
  URI : String := ""
deriving Repr, DecidableEq

end dist

namespace project

/-- A decoded TOML value, the content of the `interface{}` entries of
`Descriptor.Metadata`. -/
inductive TomlValue where
  | str (s : String)
  | int (i : Int)
  | bool (b : Bool)
  | arr (xs : List TomlValue)
  | table (kv : List (String × TomlValue))

structure Script where
  API : String := ""
  Inline : String := ""
  Shell : String := ""
deriving Repr, DecidableEq

structure Buildpack where
  ID : String := ""
  Version : String := ""
  URI : String := ""
  Script : Script := {}
deriving Repr, DecidableEq

structure EnvVar where
  Name : String := ""
  Value : String := ""
deriving Repr, DecidableEq

/-- The `build` table. `Include` and `Exclude` are Go slices that `validate`
compares with `nil`: `none` is the nil slice, `some xs` a defined one. -/
structure Build where
  Include : Option (List String) := none
  Exclude : Option (List String) := none
  Buildpacks : List Buildpack := []
  Env : List EnvVar := []
  Builder : String := ""
deriving Repr, DecidableEq

structure Project where
  Name : String := ""
  Version : String := ""
  SourceURL : String := ""
  Licenses : List dist.License := []
deriving Repr, DecidableEq

structure Descriptor where
  Project : Project := {}
  Build : Build := {}
  Metadata : List (String × TomlValue) := []

/-- The loop `for _, license := range p.Project.Licenses` of `validate`. -/
def validateLicenses : List dist.License → Option String
  | [] => none
  | license :: rest =>
    if license.Type_ == "" && license.URI == "" then
      some "project.toml: must have a type or uri defined for each license"
    else validateLicenses rest

/-- The loop `for _, bp := range p.Build.Buildpacks` of `validate`. -/
def validateBuildpacks : List Buildpack → Option String
  | [] => none
  | bp :: rest =>
    if bp.ID == "" && bp.URI == "" then
      some "project.toml: buildpacks must have an id or url defined"
    else if bp.URI != "" && bp.Version != "" then
      some "project.toml: buildpacks cannot have both uri and version defined"
    else validateBuildpacks rest

/-- The function `validate` of project.go. -/
def validate (p : Descriptor) : Option String :=
  if p.Build.Exclude.isSome && p.Build.Include.isSome then
    some "project.toml: cannot have both include and exclude defined"
  else
    match (if p.Project.Licenses.length > 0 then validateLicenses p.Project.Licenses
           else none) with
    | some err => some err
    | none => validateBuildpacks p.Build.Buildpacks

/-- What `ReadProjectDescriptor` takes from outside the package:
`filepath.Clean`, `ioutil.ReadFile` and `toml.Decode` into a zero
`Descriptor`. A failing call yields its error message. -/
structure Env where
  Clean : String → String
  ReadFile : String → Except String String
  Decode : String → Except String Descriptor

/-- The function `ReadProjectDescriptor` of project.go. -/
def ReadProjectDescriptor (env : Env) (pathToFile : String) : Descriptor × Option String :=
  match env.ReadFile (env.Clean pathToFile) with
  | .error err => ({}, some err)
  | .ok projectTomlContents =>
    match env.Decode projectTomlContents with
    | .error err => ({}, some err)
    | .ok descriptor => (descriptor, validate descriptor)

end project

/-! ## acceptance/acceptance_test.go: taskKey -/

namespace sha256

/-! `crypto/sha256` of the Go standard library, as defined by FIPS 180-4, on
bytes and 32-bit words held in `Nat` with explicit reduction modulo `2^32`. -/

def K : List Nat := [
  0x428a2f98, 0x71374491, 0xb5c0fbcf, 0xe9b5dba5, 0x3956c25b, 0x59f111f1, 0x923f82a4, 0xab1c5ed5,
  0xd807aa98, 0x12835b01, 0x243185be, 0x550c7dc3, 0x72be5d74, 0x80deb1fe, 0x9bdc06a7, 0xc19bf174,
  0xe49b69c1, 0xefbe4786, 0x0fc19dc6, 0x240ca1cc, 0x2de92c6f, 0x4a7484aa, 0x5cb0a9dc, 0x76f988da,
  0x983e5152, 0xa831c66d, 0xb00327c8, 0xbf597fc7, 0xc6e00bf3, 0xd5a79147, 0x06ca6351, 0x14292967,
  0x27b70a85, 0x2e1b2138, 0x4d2c6dfc, 0x53380d13, 0x650a7354, 0x766a0abb, 0x81c2c92e, 0x92722c85,
  0xa2bfe8a1, 0xa81a664b, 0xc24b8b70, 0xc76c51a3, 0xd192e819, 0xd6990624, 0xf40e3585, 0x106aa070,
  0x19a4c116, 0x1e376c08, 0x2748774c, 0x34b0bcb5, 0x391c0cb3, 0x4ed8aa4a, 0x5b9cca4f, 0x682e6ff3,
  0x748f82ee, 0x78a5636f, 0x84c87814, 0x8cc70208, 0x90befffa, 0xa4506ceb, 0xbef9a3f7, 0xc67178f2]

/-- A 32-bit word rotated right by `n` bits. -/
def rotr (x n : Nat) : Nat := ((x >>> n) ||| (x <<< (32 - n))) % 2 ^ 32

def Ch (x y z : Nat) : Nat := (x &&& y) ^^^ ((2 ^ 32 - 1 - x) &&& z)
def Maj (x y z : Nat) : Nat := (x &&& y) ^^^ (x &&& z) ^^^ (y &&& z)
def bigSigma0 (x : Nat) : Nat := rotr x 2 ^^^ rotr x 13 ^^^ rotr x 22
def bigSigma1 (x : Nat) : Nat := rotr x 6 ^^^ rotr x 11 ^^^ rotr x 25
def smallSigma0 (x : Nat) : Nat := rotr x 7 ^^^ rotr x 18 ^^^ (x >>> 3)
def smallSigma1 (x : Nat) : Nat := rotr x 17 ^^^ rotr x 19 ^^^ (x >>> 10)

/-- The eight working words of the hash state. -/
structure State where
  a : Nat
  b : Nat
  c : Nat
  d : Nat
  e : Nat
  f : Nat
  g : Nat
  h : Nat
deriving Repr, DecidableEq

def init : State :=
  ⟨0x6a09e667, 0xbb67ae85, 0x3c6ef372, 0xa54ff53a, 0x510e527f, 0x9b05688c, 0x1f83d9ab, 0x5be0cd19⟩

/-- The padded message: the byte 0x80, zero bytes up to 56 modulo 64, and the
bit length as a 64-bit big-endian number. -/
def pad (msg : List Nat) : List Nat :=
  msg ++ [0x80] ++ List.replicate ((119 - msg.length % 64) % 64) 0 ++
    (List.range 8).map (fun i => (8 * msg.length) >>> (8 * (7 - i)) % 256)

/-- Big-endian 32-bit words of a byte list. -/
def toWords (bytes : List Nat) : List Nat :=
  (List.range (bytes.length / 4)).map fun i =>
    bytes.getD (4 * i) 0 * 2 ^ 24 + bytes.getD (4 * i + 1) 0 * 2 ^ 16 +
      bytes.getD (4 * i + 2) 0 * 2 ^ 8 + bytes.getD (4 * i + 3) 0

/-- The message schedule: the 16 words of the block extended to 64 words. -/
def schedule (block : List Nat) : List Nat :=
  (List.range 48).foldl
    (fun w i =>
      let t := i + 16
      w ++ [(smallSigma1 (w.getD (t - 2) 0) + w.getD (t - 7) 0 +
              smallSigma0 (w.getD (t - 15) 0) + w.getD (t - 16) 0) % 2 ^ 32])
    block

def round (s : State) (kw : Nat × Nat) : State :=
  let t1 := (s.h + bigSigma1 s.e + Ch s.e s.f s.g + kw.1 + kw.2) % 2 ^ 32
  let t2 := (bigSigma0 s.a + Maj s.a s.b s.c) % 2 ^ 32
  ⟨(t1 + t2) % 2 ^ 32, s.a, s.b, s.c, (s.d + t1) % 2 ^ 32, s.e, s.f, s.g⟩

/-- One block of 16 words folded into the state. -/
def compress (s : State) (block : List Nat) : State :=
  let r := (K.zip (schedule block)).foldl round s
  ⟨(s.a + r.a) % 2 ^ 32, (s.b + r.b) % 2 ^ 32, (s.c + r.c) % 2 ^ 32, (s.d + r.d) % 2 ^ 32,
   (s.e + r.e) % 2 ^ 32, (s.f + r.f) % 2 ^ 32, (s.g + r.g) % 2 ^ 32, (s.h + r.h) % 2 ^ 32⟩

def blocks (words : List Nat) : List (List Nat) :=
  (List.range (words.length / 16)).map fun i => (words.drop (16 * i)).take 16

def be32 (w : Nat) : List Nat := [w >>> 24 % 256, w >>> 16 % 256, w >>> 8 % 256, w % 256]

/-- The SHA-256 digest (32 bytes) of a byte list. -/
def Sum256 (msg : List Nat) : List Nat :=
  let s := (blocks (toWords (pad msg))).foldl compress init
  be32 s.a ++ be32 s.b ++ be32 s.c ++ be32 s.d ++ be32 s.e ++ be32 s.f ++ be32 s.g ++ be32 s.h

/-- The running hash returned by `sha256.New`, as a `hash.Hash`: it holds the
bytes written so far. -/
structure digest where
  written : List Nat
deriving Repr, DecidableEq

/-- The Go call `sha256.New()`. -/
def New : digest := ⟨[]⟩

/-- The method `Write` of `hash.Hash`: adds more data to the running hash. -/
def digest.Write (d : digest) (p : List Nat) : digest := ⟨d.written ++ p⟩

/-- The method `Sum` of `hash.Hash`: appends the current hash to `b`. -/
def digest.Sum (d : digest) (b : List Nat) : List Nat := b ++ Sum256 d.written

end sha256


namespace hex

/-- The constant `hextable` of `encoding/hex`. -/
def hextable : List Char := "0123456789abcdef".data

/-- The Go function `hex.EncodeToString`: two characters of `hextable` for each
byte, the high half first. -/
def EncodeToString (src : List Nat) : String :=
  String.mk (src.flatMap fun v => [hextable.getD (v >>> 4) '0', hextable.getD (v &&& 0x0f) '0'])

end hex

namespace acceptance

/-- The UTF-8 encoding of one character. -/
def utf8EncodeChar (c : Char) : List Nat :=
  let v := c.toNat
  if v ≤ 0x7f then [v]
  else if v ≤ 0x7ff then [0xc0 ||| (v >>> 6), 0x80 ||| (v &&& 0x3f)]
  else if v ≤ 0xffff then
    [0xe0 ||| (v >>> 12), 0x80 ||| ((v >>> 6) &&& 0x3f), 0x80 ||| (v &&& 0x3f)]
  else
    [0xf0 ||| (v >>> 18), 0x80 ||| ((v >>> 12) &&& 0x3f), 0x80 ||| ((v >>> 6) &&& 0x3f),
     0x80 ||| (v &&& 0x3f)]

/-- The Go conversion `[]byte(v)`: a Lean string stands for the Go string made
of its UTF-8 bytes, so that `len(v)` is `(bytes v).length`. -/
def bytes (v : String) : List Nat := v.data.flatMap utf8EncodeChar

/-- The function `taskKey` of acceptance_test.go:
`hash := sha256.New()`, one `hash.Write([]byte(v))` for each argument, then
`fmt.Sprintf("%s-%s", prefix, hex.EncodeToString(hash.Sum(nil)))`. -/
def taskKey (pfx : String) (args : List String) : String :=
  let hash := args.foldl (fun h v => h.Write (bytes v)) sha256.New
  pfx ++ "-" ++ hex.EncodeToString (hash.Sum [])

end acceptance

/-! ## CreateBuilder

The file that implements `CreateBuilder` is not among the sources; only
`create_builder_test.go` is. The definitions of this section are modelled from
the specification (§3, §4.3, §4.6, §7) and from the scenarios of the test file,
which fix the error texts and the order of the checks where the specification
is silent. The tests assert that an error contains a text, so an error value of
the model is the asserted text, without any wrapping context the real error may
carry in front of it; for a failure that no test exercises the text describes
the failure the specification names. -/

namespace pack

/-- Modelled from the spec: `style.Symbol` (package `internal/style` is not
among the sources), with colour disabled as in the tests: the value between
single quotes. -/
def Symbol (value : String) : String := "'" ++ value ++ "'"

/-- Modelled from the spec: the pull policy of §4.2, `Always | IfNotPresent | Never`. -/
inductive PullPolicy where
  | PullAlways
  | PullIfNotPresent
  | PullNever
deriving Repr, DecidableEq

/-- Modelled from the spec: `dist.BuildpackInfo`, the `id`, `version` and
`homepage` of a buildpack (§3). -/
structure BuildpackInfo where
  ID : String := ""
  Version : String := ""
  Homepage : String := ""
deriving Repr, DecidableEq

/-- Modelled from the spec: `dist.Stack`, one `[[stacks]]` entry of a buildpack
descriptor (§3). -/
structure Stack where
  ID : String
  Mixins : List String := []
deriving Repr, DecidableEq

/-- Modelled from the spec: `dist.BuildpackRef`, one entry of a group (§3). -/
structure BuildpackRef where
  ID : String := ""
  Version : String := ""
  Optional : Bool := false
deriving Repr, DecidableEq

/-- Modelled from the spec: `dist.OrderEntry`, one group of the order (§3). -/
structure OrderEntry where
  Group : List BuildpackRef := []
deriving Repr, DecidableEq

/-- Modelled from the spec: `dist.BuildpackDescriptor` (§3). -/
structure BuildpackDescriptor where
  API : String := ""
  Info : BuildpackInfo := {}
  Stacks : List Stack := []
  Order : List OrderEntry := []
deriving Repr, DecidableEq

/-- Modelled from the spec: a downloaded buildpack (`dist.Buildpack`): its
descriptor and the digest of its layer tar. -/
structure Buildpack where
  Descriptor : BuildpackDescriptor := {}
  DiffID : String := ""
deriving Repr, DecidableEq

/-- Modelled from the spec: the lifecycle descriptor of §3, with the supported
and deprecated buildpack and platform API versions. -/
structure Lifecycle where
  Version : String := ""
  BuildpackDeprecated : List String := []
  BuildpackSupported : List String := []
  PlatformDeprecated : List String := []
  PlatformSupported : List String := []
  DiffID : String := ""
deriving Repr, DecidableEq

/-- Modelled from the spec: an image handle (§4.2) as far as `CreateBuilder`
reads it: its name, its OS, the label `io.buildpacks.stack.id` (reading a label
can fail, as for the `fakeBadImageStruct` of the tests), the decoded label
`io.buildpacks.stack.mixins` and its environment. -/
structure Image where
  Name : String
  OS : String := "linux"
  StackID : Except String String := .ok ""
  Mixins : List String := []
  Env : List (String × String) := []

/-- Modelled from the spec: `image.FetchOptions` as the tests write it. -/
structure FetchOptions where
  Daemon : Bool
  PullPolicy : PullPolicy
deriving Repr, DecidableEq

/-- Modelled from the spec: what `ImageFetcher.Fetch` returns: an image, the
error `image.ErrNotFound`, or another error. -/
inductive FetchResult where
  | ok (img : Image)
  | notFound
  | failed (msg : String)

/-- The image of a fetch result, if there is one. -/
def FetchResult.image (r : FetchResult) : Option Image :=
  match r with
  | .ok img => some img
  | _ => none

/-- Modelled from the spec: `pubbldr.BuildpackConfig`, one `[[buildpacks]]`
entry of builder.toml: `id|version|uri|image` (§6). -/
structure BuildpackConfig where
  ID : String := ""
  Version : String := ""
  Homepage : String := ""
  URI : String := ""
  ImageName : String := ""
deriving Repr, DecidableEq

/-- Modelled from the spec: `pubbldr.StackConfig`, the `[stack]` table (§6). -/
structure StackConfig where
  ID : String := ""
  BuildImage : String := ""
  RunImage : String := ""
  RunImageMirrors : List String := []
deriving Repr, DecidableEq

/-- Modelled from the spec: `pubbldr.LifecycleConfig`, the `[lifecycle]` table (§6). -/
structure LifecycleConfig where
  URI : String := ""
  Version : String := ""
deriving Repr, DecidableEq

/-- Modelled from the spec: `pubbldr.Config`, the builder config (§4.6, §6). -/
structure Config where
  Description : String := ""
  Buildpacks : List BuildpackConfig := []
  Order : List OrderEntry := []
  Stack : StackConfig := {}
  Lifecycle : LifecycleConfig := {}
deriving Repr, DecidableEq

/-- Modelled from the spec: `pack.CreateBuilderOptions` as the tests fill it. -/
structure CreateBuilderOptions where
  RelativeBaseDir : String := ""
  BuilderName : String := ""
  Config : Config := {}
  Publish : Bool := false
  Registry : String := ""
  PullPolicy : PullPolicy := .PullAlways
deriving Repr, DecidableEq

/-- Modelled from the spec: `pack.BuildpackDownloadOptions` as the tests write it. -/
structure BuildpackDownloadOptions where
  RegistryName : String := ""
  RelativeBaseDir : String := ""
  Daemon : Bool := false
  PullPolicy : PullPolicy := .PullAlways
  ImageOS : String := ""
  ImageName : String := ""
deriving Repr, DecidableEq

/-- Modelled from the spec: the collaborators of `pack.Client` that
`CreateBuilder` calls (the mocks of the tests): the image fetcher, the
buildpack downloader (main buildpack and its dependencies), the blob downloader
followed by the reading of `lifecycle.toml` (`none` when the blob is not a
lifecycle), `paths.FilePathToURI`, the semver parser (the canonical text of a
valid version), and the constant `builder.DefaultLifecycleVersion`. -/
structure Client where
  experimental : Bool := false
  Fetch : String → FetchOptions → FetchResult
  DownloadBuildpack : String → BuildpackDownloadOptions → Except String (Buildpack × List Buildpack)
  Download : String → Except String (Option Lifecycle)
  FilePathToURI : String → String → Except String String
  ParseSemver : String → Option String
  DefaultLifecycleVersion : String

/-- Modelled from the spec: one layer of the composed image (§4.6 step 5): a
buildpack at `/cnb/buildpacks/<id>/<version>/` with the digest of its tar, the
lifecycle at `/cnb/lifecycle/`, `/cnb/stack.toml` or `/cnb/order.toml`. -/
inductive Layer where
  | buildpack (id version diffID : String)
  | lifecycle (diffID : String)
  | stack (s : StackConfig)
  | order (o : List OrderEntry)
deriving Repr, DecidableEq

/-- Modelled from the spec: the builder under construction and, once saved,
the builder image of §3: the metadata of the three labels, the environment
inherited from the build image and the appended layers. -/
structure Builder where
  Name : String := ""
  Description : String := ""
  OS : String := ""
  StackID : String := ""
  Mixins : List String := []
  UID : String := ""
  GID : String := ""
  Lifecycle : Lifecycle := {}
  Buildpacks : List Buildpack := []
  Order : List OrderEntry := []
  Stack : StackConfig := {}
  Layers : List Layer := []
  BuildpackLayers : List (String × String × String) := []
  Published : Bool := false
deriving Repr, DecidableEq

/-- Modelled from the spec: what a call of `CreateBuilder` leaves: the warnings
written to the logger, in order, and the error or the saved builder image. -/
structure Outcome where
  warnings : List String
  result : Except String Builder

/-- Modelled from the spec: `pubbldr.ValidateConfig`: the stack id, the build
image and the run image are required (§7, Config: missing required field; the
texts are those of the tests "should fail when the stack ID is empty", "... the
build image is empty", "... the run image is empty"). -/
def ValidateConfig (cfg : Config) : Option String :=
  if cfg.Stack.ID == "" then some "stack.id is required"
  else if cfg.Stack.BuildImage == "" then some "stack.build-image is required"
  else if cfg.Stack.RunImage == "" then some "stack.run-image is required"
  else none

/-- Modelled from the spec: the fetch of one run image or mirror. Without
`Publish` the daemon is asked first and, when the image is not found there, the
registry; with `Publish` only the registry (tests "should warn when the run
image cannot be found", "should fail when not publish ...", "publish is true"). -/
def fetchRunImage (c : Client) (opts : CreateBuilderOptions) (name : String) : FetchResult :=
  if !opts.Publish then
    match c.Fetch name ⟨true, opts.PullPolicy⟩ with
    | .ok img => .ok img
    | .failed msg => .failed msg
    | .notFound => c.Fetch name ⟨false, opts.PullPolicy⟩
  else c.Fetch name ⟨false, opts.PullPolicy⟩

/-- Modelled from the spec: §4.6 step 4, "Fetch the run image (and each
mirror) ... warn (not fail) if a mirror cannot be fetched": an image that is
not found is a warning, any other fetch error ends the call. Returns the
warnings and the images fetched, in order. -/
def fetchRunImages (c : Client) (opts : CreateBuilderOptions) :
    List String → List String × Except String (List Image)
  | [] => ([], .ok [])
  | name :: rest =>
    match fetchRunImage c opts name with
    | .failed msg => ([], .error ("failed to fetch image: " ++ msg))
    | .notFound =>
      (("run image " ++ Symbol name ++ " is not accessible") :: (fetchRunImages c opts rest).1,
        (fetchRunImages c opts rest).2)
    | .ok img =>
      ((fetchRunImages c opts rest).1,
        match (fetchRunImages c opts rest).2 with
        | .error e => .error e
        | .ok imgs => .ok (img :: imgs))

/-- Modelled from the spec: §4.6 step 4, "Validate stack id equality with the
builder config", over the fetched run images in order. -/
def validateRunImageStacks (stackID : String) : List Image → Option String
  | [] => none
  | img :: rest =>
    match img.StackID with
    | .error _ => some "failed to label image"
    | .ok id =>
      if id != stackID then
        some ("stack " ++ Symbol stackID ++ " from builder config is incompatible with stack " ++
          Symbol id ++ " from run image " ++ Symbol img.Name)
      else validateRunImageStacks stackID rest

/-- Modelled from the spec: the validation of the run image config: warnings
and the error, if any. -/
def validateRunImageConfig (c : Client) (opts : CreateBuilderOptions) :
    List String × Option String :=
  match fetchRunImages c opts (opts.Config.Stack.RunImage :: opts.Config.Stack.RunImageMirrors) with
  | (ws, .error e) => (ws, some e)
  | (ws, .ok imgs) => (ws, validateRunImageStacks opts.Config.Stack.ID imgs)

/-- The value of an environment variable of an image, empty when absent. -/
def lookupEnv (env : List (String × String)) (key : String) : String :=
  (env.lookup key).getD ""

/-- Modelled from the spec: the canonical download URL of a lifecycle version
for an OS (§4.6 step 3; the text is the one the tests "only lifecycle version is
provided" expect). -/
def uriFromLifecycleVersion (version os : String) : String :=
  "https://github.com/buildpacks/lifecycle/releases/download/v" ++ version ++
    "/lifecycle-v" ++ version ++ "+" ++ os ++ ".x86-64.tgz"

/-- Modelled from the spec: §4.6 step 3, "Resolve the lifecycle: by URI
(download and unpack) or by version (derive canonical URL from the target
OS)", with the errors of the tests "should fail when both lifecycle version and
uri are present", "... is not a semver", "error downloading lifecycle" and
"lifecycle isn't a valid lifecycle". -/
def fetchLifecycle (c : Client) (config : LifecycleConfig) (relativeBaseDir os : String) :
    Except String Lifecycle :=
  if config.Version != "" && config.URI != "" then
    .error "'lifecycle' can only declare 'version' or 'uri', not both"
  else
    match (if config.Version != "" then
             match c.ParseSemver config.Version with
             | none => .error "'lifecycle.version' must be a valid semver"
             | some v => .ok (uriFromLifecycleVersion v os)
           else if config.URI != "" then c.FilePathToURI config.URI relativeBaseDir
           else .ok (uriFromLifecycleVersion c.DefaultLifecycleVersion os) :
           Except String String) with
    | .error e => .error e
    | .ok uri =>
      match c.Download uri with
      | .error e => .error ("downloading lifecycle: " ++ e)
      | .ok none => .error "invalid lifecycle"
      | .ok (some lifecycle) => .ok lifecycle

/-- Modelled from the spec: §4.6 steps 1 and 3 and the states `Init →
BuildImageFetched → LifecycleResolved`: fetch the build image (from the daemon
unless publishing), read its stack id and mixins (an image whose label cannot
be read is not a valid build image), compare the stack id with the builder
config (§3: both images advertise the stack id), admit a windows image only
under the experimental flag, and resolve the lifecycle. Neither the
specification nor the tests fix which of the stack comparison and the windows
gate comes first: what is proved about one of them assumes that the other
passes. -/
def createBaseBuilder (c : Client) (opts : CreateBuilderOptions) : Except String Builder :=
  match c.Fetch opts.Config.Stack.BuildImage ⟨!opts.Publish, opts.PullPolicy⟩ with
  | .notFound => .error "fetch build image: not found"
  | .failed msg => .error ("fetch build image: " ++ msg)
  | .ok baseImage =>
    match baseImage.StackID with
    | .error _ => .error "failed to create builder: invalid build-image"
    | .ok stackID =>
      if stackID != opts.Config.Stack.ID then
        .error ("stack " ++ Symbol opts.Config.Stack.ID ++
          " from builder config is incompatible with stack " ++ Symbol stackID ++
          " from build image")
      else if baseImage.OS == "windows" && !c.experimental then
        .error "failed to create builder: Windows containers support is currently experimental."
      else
        match fetchLifecycle c opts.Config.Lifecycle opts.RelativeBaseDir baseImage.OS with
        | .error e => .error e
        | .ok lifecycle =>
          .ok { Name := opts.BuilderName, Description := opts.Config.Description,
                OS := baseImage.OS, StackID := stackID, Mixins := baseImage.Mixins,
                UID := lookupEnv baseImage.Env "CNB_USER_ID",
                GID := lookupEnv baseImage.Env "CNB_GROUP_ID",
                Lifecycle := lifecycle }

/-- Modelled from the spec: §4.6 step 2, "declared `(id, version)` matches the
downloaded buildpack" (`IDVersionMismatch`, §4.5); a field the config leaves
empty is not declared and is not compared (tests "package file is valid" and
"packages", whose entries only give a uri). -/
def validateBuildpack (bp : Buildpack) (source expectedID expectedBPVersion : String) :
    Option String :=
  if expectedID != "" && bp.Descriptor.Info.ID != expectedID then
    some ("buildpack from URI " ++ Symbol source ++ " has ID " ++ Symbol bp.Descriptor.Info.ID ++
      " which does not match ID " ++ Symbol expectedID ++ " from builder config")
  else if expectedBPVersion != "" && bp.Descriptor.Info.Version != expectedBPVersion then
    some ("buildpack from URI " ++ Symbol source ++ " has version " ++
      Symbol bp.Descriptor.Info.Version ++ " which does not match version " ++
      Symbol expectedBPVersion ++ " from builder config")
  else none

/-- Modelled from the spec: the options handed to the buildpack downloader for
one entry of the config (the pull policy threads through, §4.5). -/
def downloadOptions (opts : CreateBuilderOptions) (os : String) (bpConfig : BuildpackConfig) :
    BuildpackDownloadOptions :=
  { RegistryName := opts.Registry, RelativeBaseDir := opts.RelativeBaseDir,
    Daemon := !opts.Publish, PullPolicy := opts.PullPolicy, ImageOS := os,
    ImageName := bpConfig.ImageName }

/-- Modelled from the spec: §4.6 step 2: each buildpack entry of the config is
resolved through the downloader and compared with what the config declares;
the buildpack and its dependencies are added to the builder. -/
def addBuildpacksToBuilder (c : Client) (opts : CreateBuilderOptions) :
    Builder → List BuildpackConfig → Except String Builder
  | bldr, [] => .ok bldr
  | bldr, bpConfig :: rest =>
    match c.DownloadBuildpack bpConfig.URI (downloadOptions opts bldr.OS bpConfig) with
    | .error e => .error ("downloading buildpack: " ++ e)
    | .ok (mainBP, depBPs) =>
      match validateBuildpack mainBP bpConfig.URI bpConfig.ID bpConfig.Version with
      | some e => .error e
      | none =>
        addBuildpacksToBuilder c opts
          { bldr with Buildpacks := bldr.Buildpacks ++ mainBP :: depBPs } rest

/-- The text `id@version` of a buildpack. -/
def fullName (info : BuildpackInfo) : String := info.ID ++ "@" ++ info.Version

/-- The order of Go strings (byte by byte, which for UTF-8 is the order of the
code points), on the characters of two strings. -/
def lessChars : List Char → List Char → Bool
  | _, [] => false
  | [], _ :: _ => true
  | x :: xs, y :: ys =>
    if x.toNat < y.toNat then true
    else if y.toNat < x.toNat then false
    else lessChars xs ys

/-- Insertion of a string into a sorted list of strings. -/
def insertSorted (a : String) : List String → List String
  | [] => [a]
  | b :: rest => if lessChars a.data b.data then a :: b :: rest else b :: insertSorted a rest

/-- The strings of a list in increasing order. -/
def sortStrings (l : List String) : List String := l.foldr insertSorted []

/-- Modelled from the spec: the mixins a buildpack requires of the build image
(§3: a mixin named `run:X` is run-only) that the image does not carry, sorted. -/
def missingMixins (required available : List String) : List String :=
  sortStrings (required.filter fun m =>
    !("run:".data.isPrefixOf m.data) && !(available.contains m))

/-- Modelled from the spec: §4.3, the validation of one buildpack against the
lifecycle and the stack of the builder: the API must be supported or deprecated
by the lifecycle (a deprecated one is a warning); a buildpack with `stacks` must
name the stack id (or the wildcard, which requires no mixin) and every mixin
it requires must be carried by the build image. A meta-buildpack is not matched
against stacks. Returns a warning or nothing, or the error. -/
def validateBuilderBuildpack (bldr : Builder) (bp : Buildpack) : Except String (List String) :=
  let name := Symbol (fullName bp.Descriptor.Info)
  if !(bldr.Lifecycle.BuildpackDeprecated.contains bp.Descriptor.API) &&
      !(bldr.Lifecycle.BuildpackSupported.contains bp.Descriptor.API) then
    .error ("validating buildpacks: buildpack " ++ name ++ " uses Buildpacks API version " ++
      Symbol bp.Descriptor.API ++ " which is not supported by the lifecycle")
  else
    let ws := if bldr.Lifecycle.BuildpackDeprecated.contains bp.Descriptor.API then
        ["Buildpack " ++ name ++ " is using deprecated Buildpacks API version " ++
          Symbol bp.Descriptor.API]
      else []
    if !bp.Descriptor.Order.isEmpty then .ok ws
    else
      match bp.Descriptor.Stacks.find? (fun s => s.ID == bldr.StackID) with
      | some s =>
        if (missingMixins s.Mixins bldr.Mixins).isEmpty then .ok ws
        else
          .error ("validating buildpacks: buildpack " ++ name ++ " requires missing mixin(s): " ++
            ", ".intercalate (missingMixins s.Mixins bldr.Mixins))
      | none =>
        if bp.Descriptor.Stacks.any (fun s => s.ID == "*") then .ok ws
        else
          .error ("validating buildpacks: buildpack " ++ name ++ " does not support stack " ++
            Symbol bldr.StackID)

/-- Modelled from the spec: the validation of every buildpack of the builder,
in order; the warnings up to the first error are kept. -/
def validateBuilderBuildpacks (bldr : Builder) : List Buildpack → List String × Option String
  | [] => ([], none)
  | bp :: rest =>
    match validateBuilderBuildpack bldr bp with
    | .error e => ([], some e)
    | .ok ws =>
      (ws ++ (validateBuilderBuildpacks bldr rest).1, (validateBuilderBuildpacks bldr rest).2)

/-- Modelled from the spec: §4.6 step 5, "a layer per unique buildpack ...
Deduplicate by content hash: a buildpack that is byte-identical to a previously
appended one (same tar digest) must not be appended twice". The digests already
appended are carried along. -/
def buildpackLayers : List String → List Buildpack → List Layer
  | _, [] => []
  | seen, bp :: rest =>
    if seen.contains bp.DiffID then buildpackLayers seen rest
    else
      Layer.buildpack bp.Descriptor.Info.ID bp.Descriptor.Info.Version bp.DiffID ::
        buildpackLayers (bp.DiffID :: seen) rest

/-- Modelled from the spec: §4.6 steps 5 to 7: the buildpacks are validated,
the user and group ids inherited from the build image must be present, the
layers are appended in order (buildpacks, lifecycle, stack.toml, order.toml),
the label `io.buildpacks.buildpack.layers` maps every `(id, version)` to the
digest of its layer, and the image is saved or pushed. -/
def Builder.Save (bldr : Builder) (publish : Bool) : List String × Except String Builder :=
  match validateBuilderBuildpacks bldr bldr.Buildpacks with
  | (ws, some e) => (ws, .error e)
  | (ws, none) =>
    if bldr.UID == "" then (ws, .error "build image is missing the env var 'CNB_USER_ID'")
    else if bldr.GID == "" then (ws, .error "build image is missing the env var 'CNB_GROUP_ID'")
    else
      (ws, .ok { bldr with
        Layers := buildpackLayers [] bldr.Buildpacks ++
          [Layer.lifecycle bldr.Lifecycle.DiffID, Layer.stack bldr.Stack, Layer.order bldr.Order],
        BuildpackLayers := bldr.Buildpacks.map fun bp =>
          (bp.Descriptor.Info.ID, bp.Descriptor.Info.Version, bp.DiffID),
        Published := publish })

/-- Modelled from the spec: `Client.CreateBuilder` (create_builder.go is not
among the sources). The steps are those of §4.6 and of the state machine
`Init → BuildImageFetched → LifecycleResolved → BuildpacksValidated →
LayersAppended → MetadataWritten → Saved|Pushed`. Two points of order are those
of the tests, not of the numbering of §4.6: the required fields of the config
are checked before any image is fetched (the tests on an empty field expect no
fetch), and the run image and its mirrors, step 4 of §4.6, are validated before
the build image is fetched (the tests on a run image with another stack id
expect no fetch of the build image). The first failing step ends the call with
its error. -/
def CreateBuilder (c : Client) (opts : CreateBuilderOptions) : Outcome :=
  match ValidateConfig opts.Config with
  | some e => ⟨[], .error e⟩
  | none =>
    match validateRunImageConfig c opts with
    | (ws, some e) => ⟨ws, .error e⟩
    | (ws, none) =>
      match createBaseBuilder c opts with
      | .error e => ⟨ws, .error e⟩
      | .ok base =>
        match addBuildpacksToBuilder c opts base opts.Config.Buildpacks with
        | .error e => ⟨ws, .error e⟩
        | .ok bldr =>
          ⟨ws ++ (Builder.Save { bldr with Order := opts.Config.Order, Stack := opts.Config.Stack }
                    opts.Publish).1,
           (Builder.Save { bldr with Order := opts.Config.Order, Stack := opts.Config.Stack }
              opts.Publish).2⟩

/-- The error of an outcome, `none` when `CreateBuilder` returned nil. -/
def Outcome.err (o : Outcome) : Option String :=
  match o.result with
  | .error e => some e
  | .ok _ => none


/-! ### The fixture of create_builder_test.go -/

/-- The image `fakeBuildImage` of the tests. -/
def fakeBuildImage : Image :=
  { Name := "some/build-image", StackID := .ok "some.stack.id",
    Mixins := ["mixinX", "build:mixinY"],
    Env := [("CNB_USER_ID", "1234"), ("CNB_GROUP_ID", "4321")] }

/-- The image `fakeRunImage` of the tests. -/
def fakeRunImage : Image := { Name := "some/run-image", StackID := .ok "some.stack.id" }

/-- The image `fakeRunImageMirror` of the tests. -/
def fakeRunImageMirror : Image :=
  { Name := "localhost:5000/some/run-image", StackID := .ok "some.stack.id" }

/-- The buildpack of `testdata/buildpack`, as the tests observe it: `bp.one`
version 1.2.3 with API 0.3, requiring the mixins `mixinX` and `build:mixinY` of
the stack `some.stack.id`. -/
def exampleBuildpack : Buildpack :=
  { Descriptor :=
      { API := "0.3",
        Info := { ID := "bp.one", Version := "1.2.3", Homepage := "http://one.buildpack" },
        Stacks := [{ ID := "some.stack.id", Mixins := ["mixinX", "build:mixinY"] }] },
    DiffID := "sha256:bp-one" }

/-- The lifecycle of `testdata/lifecycle/platform-0.4`, as the test "should set
lifecycle descriptor" observes it. -/
def exampleLifecycle : Lifecycle :=
  { Version := "0.0.0", BuildpackDeprecated := ["0.2", "0.3"],
    BuildpackSupported := ["0.2", "0.3", "0.4"], PlatformDeprecated := ["0.2"],
    PlatformSupported := ["0.3", "0.4"], DiffID := "sha256:lifecycle" }

/-- The runs of characters between the dots of a text. -/
def splitDots : List Char → List (List Char)
  | [] => [[]]
  | c :: cs =>
    if c == '.' then [] :: splitDots cs
    else
      match splitDots cs with
      | [] => [[c]]
      | p :: ps => (c :: p) :: ps

/-- A version parser for the fixture: three dot-separated runs of digits. -/
def threeNumbers (s : String) : Option String :=
  if (splitDots s.data).length == 3 &&
      (splitDots s.data).all (fun p => !p.isEmpty && p.all Char.isDigit) then some s
  else none

/-- The client of the tests: the mocked fetcher returns the three images under
their names, the mocked downloaders know `https://example.fake/bp-one.tgz` and
`file:///some-lifecycle`. -/
def fakeClient (build run mirror : FetchResult) (experimental : Bool) : Client :=
  { experimental := experimental,
    Fetch := fun name _ =>
      if name == "some/build-image" then build
      else if name == "some/run-image" then run
      else if name == "localhost:5000/some/run-image" then mirror
      else .notFound,
    DownloadBuildpack := fun uri _ =>
      if uri == "https://example.fake/bp-one.tgz" then .ok (exampleBuildpack, [])
      else .error "not found",
    Download := fun uri =>
      if uri == "file:///some-lifecycle" then .ok (some exampleLifecycle)
      else .error "not found",
    FilePathToURI := fun uri _ => .ok uri,
    ParseSemver := threeNumbers,
    DefaultLifecycleVersion := "0.11.3" }

/-- The options `opts` the tests start from. -/
def fakeOpts : CreateBuilderOptions :=
  { RelativeBaseDir := "/", BuilderName := "some/builder",
    Config :=
      { Description := "Some description",
        Buildpacks :=
          [{ ID := "bp.one", Version := "1.2.3", Homepage := "http://one.buildpack",
             URI := "https://example.fake/bp-one.tgz" }],
        Order := [{ Group := [{ ID := "bp.one", Version := "1.2.3" }] }],
        Stack := { ID := "some.stack.id", BuildImage := "some/build-image",
                   RunImage := "some/run-image",
                   RunImageMirrors := ["localhost:5000/some/run-image"] },
        Lifecycle := { URI := "file:///some-lifecycle" } },
    Publish := false, PullPolicy := .PullAlways }

end pack

/-! ### Auxiliary definitions for the statements about CreateBuilder -/

namespace pack

/-- The last step of `fetchLifecycle`, on the result of the download: a failed
download and a blob that is no lifecycle are errors. -/
def lifecycleFromDownload (r : Except String (Option Lifecycle)) : Except String Lifecycle :=
  match r with
  | .error e => .error ("downloading lifecycle: " ++ e)
  | .ok none => .error "invalid lifecycle"
  | .ok (some lifecycle) => .ok lifecycle

/-- The builder `createBaseBuilder` returns for a build image and a lifecycle. -/
def baseBuilderOf (opts : CreateBuilderOptions) (baseImage : Image) (stackID : String)
    (lifecycle : Lifecycle) : Builder :=
  { Name := opts.BuilderName, Description := opts.Config.Description,
    OS := baseImage.OS, StackID := stackID, Mixins := baseImage.Mixins,
    UID := lookupEnv baseImage.Env "CNB_USER_ID",
    GID := lookupEnv baseImage.Env "CNB_GROUP_ID",
    Lifecycle := lifecycle }

/-- Whether a fetch ended with `image.ErrNotFound`. -/
def FetchResult.isNotFound (r : FetchResult) : Bool :=
  match r with
  | .notFound => true
  | _ => false

/-- The warning for a run image or mirror that is not found. -/
def notAccessible (name : String) : String := "run image " ++ Symbol name ++ " is not accessible"

/-- The digest of a buildpack layer; the other layers are no buildpack layers. -/
def Layer.buildpackDiffID (l : Layer) : Option String :=
  match l with
  | .buildpack _ _ diffID => some diffID
  | _ => none

/-- The digest of a layer made from a downloaded tar, a buildpack or the
lifecycle; the layers of `stack.toml` and `order.toml` are written by the
builder itself and their digests are not modelled. -/
def Layer.diffID (l : Layer) : Option String :=
  match l with
  | .buildpack _ _ diffID => some diffID
  | .lifecycle diffID => some diffID
  | _ => none

/-- The client of the tests whose mocked blob downloader returns the lifecycle
for one more uri (tests "only lifecycle version is provided" and "no lifecycle
version or URI is provided"). -/
def fakeClientWithLifecycleAt (uri : String) (build run mirror : FetchResult)
    (experimental : Bool) : Client :=
  { fakeClient build run mirror experimental with
    Download := fun u =>
      if u == uri || u == "file:///some-lifecycle" then .ok (some exampleLifecycle)
      else .error "not found" }

/-- The client of the tests whose mocked buildpack downloader returns the
buildpacks of a list under their uris. -/
def fakeClientWithBuildpacks (bps : List (String × Buildpack)) (build run mirror : FetchResult)
    (experimental : Bool) : Client :=
  { fakeClient build run mirror experimental with
    DownloadBuildpack := fun uri _ =>
      match bps.lookup uri with
      | some bp => .ok (bp, [])
      | none => .error "not found" }

end pack

/-! ### buildpack package, file format -/

namespace filepath

/-- The scan of `filepath.Ext` from the end of the path: the characters not yet
read, last first, and the characters already read. It stops at a path
separator with no extension and at a dot with the extension. -/
def extFrom : List Char → List Char → List Char
  | [], _ => []
  | ch :: rest, read =>
    if ch == '/' then []
    else if ch == '.' then '.' :: read
    else extFrom rest (ch :: read)

/-- The Go function `filepath.Ext`, with `/` as the path separator: the suffix
beginning at the final dot in the final element of the path, empty if there is
no dot. -/
def Ext (path : String) : String := String.mk (extFrom path.data.reverse [])

end filepath

namespace pack

/-- Modelled from the spec: the constant `CNBExtension` (§4.4: "Default
extension `.cnb`"). -/
def CNBExtension : String := ".cnb"

/-- Modelled from the spec: the warning about the extension of a package file
(the code that writes it is not among the sources; the acceptance test only
asserts that an invalid extension is reported for ".gz"). -/
def invalidExtension (ext : String) : String :=
  Symbol ext ++ " is not a valid extension for a packaged buildpack. " ++
    "Packaged buildpacks must have a " ++ Symbol CNBExtension ++ " extension"

/-- Modelled from the spec: the name of the file `buildpack package <dest>
--format file` writes, and the warnings it surfaces (the command is not among
the sources); §4.4: "Default extension `.cnb`; non-`.cnb` extensions are kept
but a warning is surfaced; empty extension becomes `.cnb`". -/
def packageFileName (name : String) : String × List String :=
  if filepath.Ext name == CNBExtension then (name, [])
  else if filepath.Ext name == "" then (name ++ CNBExtension, [])
  else (name, [invalidExtension (filepath.Ext name)])

end pack
/-! ## Theorems: project descriptor -/

namespace project

theorem validateBuildpacks_ne_none_of_no_id_uri (bps : List Buildpack)
    (h : ∃ bp ∈ bps, bp.ID = "" ∧ bp.URI = "") : validateBuildpacks bps ≠ none := by
  induction bps with
  | nil => simp at h
  | cons b rest ih =>
    unfold validateBuildpacks
    by_cases h1 : (b.ID == "" && b.URI == "") = true
    · simp [h1]
    · by_cases h2 : (b.URI != "" && b.Version != "") = true
      · simp [h1, h2]
      · simp only [h1, h2, if_false, Bool.false_eq_true]
        apply ih
        obtain ⟨bp, hmem, hid, huri⟩ := h
        rcases List.mem_cons.mp hmem with heq | hin
        · subst heq
          exact absurd (by simp [hid, huri]) h1
        · exact ⟨bp, hin, hid, huri⟩

theorem validateBuildpacks_ne_none_of_uri_version (bps : List Buildpack)
    (h : ∃ bp ∈ bps, bp.URI ≠ "" ∧ bp.Version ≠ "") : validateBuildpacks bps ≠ none := by
  induction bps with
  | nil => simp at h
  | cons b rest ih =>
    unfold validateBuildpacks
    by_cases h1 : (b.ID == "" && b.URI == "") = true
    · simp [h1]
    · by_cases h2 : (b.URI != "" && b.Version != "") = true
      · simp [h1, h2]
      · simp only [h1, h2, if_false, Bool.false_eq_true]
        apply ih
        obtain ⟨bp, hmem, huri, hver⟩ := h
        rcases List.mem_cons.mp hmem with heq | hin
        · subst heq
          exact absurd (by simp [huri, hver]) h2
        · exact ⟨bp, hin, huri, hver⟩

theorem validate_ne_none_of_buildpacks (p : Descriptor)
    (h : validateBuildpacks p.Build.Buildpacks ≠ none) : validate p ≠ none := by
  unfold validate
  split
  · simp
  · split
    · simp
    · exact h

theorem validateLicenses_eq_none (ls : List dist.License)
    (h : ∀ l ∈ ls, l.Type_ ≠ "" ∨ l.URI ≠ "") : validateLicenses ls = none := by
  induction ls with
  | nil => rfl
  | cons l rest ih =>
    unfold validateLicenses
    have hl := h l (List.mem_cons_self _ _)
    have : (l.Type_ == "" && l.URI == "") = false := by
      rcases hl with h1 | h1 <;> simp [h1]
    simp only [this, Bool.false_eq_true, if_false]
    exact ih (fun x hx => h x (List.mem_cons_of_mem _ hx))

theorem validateBuildpacks_eq_none (bps : List Buildpack)
    (h : ∀ bp ∈ bps, (bp.ID ≠ "" ∨ bp.URI ≠ "") ∧ (bp.URI = "" ∨ bp.Version = "")) :
    validateBuildpacks bps = none := by
  induction bps with
  | nil => rfl
  | cons b rest ih =>
    unfold validateBuildpacks
    obtain ⟨ha, hb⟩ := h b (List.mem_cons_self _ _)
    have h1 : (b.ID == "" && b.URI == "") = false := by
      rcases ha with h1 | h1 <;> simp [h1]
    have h2 : (b.URI != "" && b.Version != "") = false := by
      rcases hb with h2 | h2 <;> simp [h2]
    simp only [h1, h2, Bool.false_eq_true, if_false]
    exact ih (fun x hx => h x (List.mem_cons_of_mem _ hx))

/-- C1: a descriptor with both `build.include` and `build.exclude` defined is
rejected by `validate` with "project.toml: cannot have both include and exclude
defined", and `ReadProjectDescriptor` returns that (non-nil) error for every
file that is read and decoded to such a descriptor. -/
theorem validate_include_exclude (p : Descriptor)
    (hi : p.Build.Include ≠ none) (he : p.Build.Exclude ≠ none) :
    validate p = some "project.toml: cannot have both include and exclude defined" ∧
    ∀ (env : Env) (pathToFile contents : String),
      env.ReadFile (env.Clean pathToFile) = .ok contents →
      env.Decode contents = .ok p →
      (ReadProjectDescriptor env pathToFile).2 =
          some "project.toml: cannot have both include and exclude defined" ∧
        (ReadProjectDescriptor env pathToFile).2 ≠ none := by
  have hv : validate p = some "project.toml: cannot have both include and exclude defined" := by
    unfold validate
    have h1 : p.Build.Exclude.isSome = true := Option.isSome_iff_ne_none.mpr he
    have h2 : p.Build.Include.isSome = true := Option.isSome_iff_ne_none.mpr hi
    simp [h1, h2]
  refine ⟨hv, ?_⟩
  intro env pathToFile contents hr hd
  simp [ReadProjectDescriptor, hr, hd, hv]

/-- C2: a descriptor whose `build.buildpacks` holds an entry with both `id`
and `uri` empty is rejected by `validate` (the error is non-nil). -/
theorem validate_buildpack_without_id_uri (p : Descriptor)
    (h : ∃ bp ∈ p.Build.Buildpacks, bp.ID = "" ∧ bp.URI = "") : validate p ≠ none :=
  validate_ne_none_of_buildpacks p (validateBuildpacks_ne_none_of_no_id_uri _ h)

/-- C3: a descriptor whose `build.buildpacks` holds an entry with both `uri`
and `version` non-empty is rejected by `validate` (the error is non-nil). -/
theorem validate_buildpack_uri_and_version (p : Descriptor)
    (h : ∃ bp ∈ p.Build.Buildpacks, bp.URI ≠ "" ∧ bp.Version ≠ "") : validate p ≠ none :=
  validate_ne_none_of_buildpacks p (validateBuildpacks_ne_none_of_uri_version _ h)

/-- C4: a descriptor with at most one of `build.include` / `build.exclude`
defined, whose licenses all have a non-empty type and whose buildpacks all have
a non-empty uri and an empty version, is accepted: `validate` returns nil. -/
theorem validate_accepts (p : Descriptor)
    (hie : p.Build.Include = none ∨ p.Build.Exclude = none)
    (hl : ∀ l ∈ p.Project.Licenses, l.Type_ ≠ "")
    (hb : ∀ bp ∈ p.Build.Buildpacks, bp.URI ≠ "" ∧ bp.Version = "") :
    validate p = none := by
  unfold validate
  have h0 : (p.Build.Exclude.isSome && p.Build.Include.isSome) = false := by
    rcases hie with h | h <;> simp [h]
  have h1 : validateLicenses p.Project.Licenses = none :=
    validateLicenses_eq_none _ (fun l hl1 => Or.inl (hl l hl1))
  have h2 : validateBuildpacks p.Build.Buildpacks = none :=
    validateBuildpacks_eq_none _ (fun bp hbp => ⟨Or.inr (hb bp hbp).1, Or.inr (hb bp hbp).2⟩)
  simp only [h0, Bool.false_eq_true, if_false, h1, h2]
  split <;> simp_all

end project

namespace project

/-- Witness of C1: `include = []` and `exclude = ["*.sh"]`, read through an
environment that decodes every file to that descriptor. -/
theorem validate_include_exclude_witness :
    validate { Build := { Include := some [], Exclude := some ["*.sh"] } } =
        some "project.toml: cannot have both include and exclude defined" ∧
      (ReadProjectDescriptor
          { Clean := fun s => s, ReadFile := fun _ => .ok "[build]",
            Decode := fun _ => .ok { Build := { Include := some [], Exclude := some ["*.sh"] } } }
          "project.toml").2 ≠ none :=
  have h := validate_include_exclude
    { Build := { Include := some [], Exclude := some ["*.sh"] } } (by simp) (by simp)
  ⟨h.1, (h.2 { Clean := fun s => s, ReadFile := fun _ => .ok "[build]",
               Decode := fun _ => .ok { Build := { Include := some [], Exclude := some ["*.sh"] } } }
            "project.toml" "[build]" rfl rfl).2⟩

/-- Witness of C2: a single buildpack entry that only names a version. -/
theorem validate_buildpack_without_id_uri_witness :
    validate { Build := { Buildpacks := [{ Version := "1.0" }] } } ≠ none :=
  validate_buildpack_without_id_uri _ ⟨{ Version := "1.0" }, by simp, rfl, rfl⟩

/-- Witness of C3: a buildpack entry with a uri and a version, after a valid entry. -/
theorem validate_buildpack_uri_and_version_witness :
    validate { Build := { Buildpacks :=
      [{ ID := "a/b" }, { URI := "descriptor-buildpack", Version := "1.0" }] } } ≠ none :=
  validate_buildpack_uri_and_version _
    ⟨{ URI := "descriptor-buildpack", Version := "1.0" }, by simp, by decide, by decide⟩

/-- Witness of C4: the project.toml of the acceptance test "uses buildpack
specified by descriptor" is accepted. -/
theorem validate_accepts_witness :
    validate
      { Project := { Name := "exclude test", Licenses := [{ Type_ := "MIT" }] },
        Build := { Exclude := some ["*.sh", "media/person.png", "descriptor-buildpack"],
                   Buildpacks := [{ URI := "descriptor-buildpack" }] } } = none :=
  validate_accepts _ (Or.inl rfl) (by simp) (by simp)

end project

namespace project

theorem validateLicenses_eq_none_iff (ls : List dist.License) :
    validateLicenses ls = none ↔ ∀ l ∈ ls, l.Type_ ≠ "" ∨ l.URI ≠ "" := by
  constructor
  · intro h
    induction ls with
    | nil => intro l hl; simp at hl
    | cons a rest ih =>
      unfold validateLicenses at h
      split at h
      · simp at h
      · rename_i hcond
        intro l hl
        rcases List.mem_cons.mp hl with heq | hin
        · subst heq
          by_contra hcon
          apply hcond
          have h1 : l.Type_ = "" := by
            by_contra h1
            exact hcon (Or.inl h1)
          have h2 : l.URI = "" := by
            by_contra h2
            exact hcon (Or.inr h2)
          simp [h1, h2]
        · exact ih h l hin
  · exact validateLicenses_eq_none ls

theorem validateBuildpacks_eq_none_iff (bps : List Buildpack) :
    validateBuildpacks bps = none ↔
      ∀ bp ∈ bps, (bp.ID ≠ "" ∨ bp.URI ≠ "") ∧ ¬ (bp.URI ≠ "" ∧ bp.Version ≠ "") := by
  constructor
  · intro h
    induction bps with
    | nil => intro bp hbp; simp at hbp
    | cons a rest ih =>
      unfold validateBuildpacks at h
      split at h
      · simp at h
      · rename_i hc1
        split at h
        · simp at h
        · rename_i hc2
          intro bp hbp
          rcases List.mem_cons.mp hbp with heq | hin
          · subst heq
            constructor
            · by_contra hcon
              apply hc1
              have h1 : bp.ID = "" := by
                by_contra h1
                exact hcon (Or.inl h1)
              have h2 : bp.URI = "" := by
                by_contra h2
                exact hcon (Or.inr h2)
              simp [h1, h2]
            · rintro ⟨hu, hv⟩
              apply hc2
              simp [hu, hv]
          · exact ih h bp hin
  · intro h
    apply validateBuildpacks_eq_none
    intro bp hbp
    obtain ⟨h1, h2⟩ := h bp hbp
    refine ⟨h1, ?_⟩
    by_cases hu : bp.URI = ""
    · exact Or.inl hu
    · right
      by_contra hv
      exact h2 ⟨hu, hv⟩

theorem validate_both_defined (p : Descriptor)
    (hi : p.Build.Include ≠ none) (he : p.Build.Exclude ≠ none) :
    validate p = some "project.toml: cannot have both include and exclude defined" := by
  unfold validate
  have h1 : p.Build.Exclude.isSome = true := Option.isSome_iff_ne_none.mpr he
  have h2 : p.Build.Include.isSome = true := Option.isSome_iff_ne_none.mpr hi
  simp [h1, h2]

theorem validateLicenses_eq_some (ls : List dist.License)
    (h : ∃ l ∈ ls, l.Type_ = "" ∧ l.URI = "") :
    validateLicenses ls =
      some "project.toml: must have a type or uri defined for each license" := by
  induction ls with
  | nil => simp at h
  | cons a rest ih =>
    unfold validateLicenses
    split
    · rfl
    · rename_i hc
      apply ih
      obtain ⟨l, hl, h1, h2⟩ := h
      rcases List.mem_cons.mp hl with heq | hin
      · subst heq
        exact absurd (by simp [h1, h2]) hc
      · exact ⟨l, hin, h1, h2⟩

theorem validate_of_not_both (p : Descriptor)
    (h : ¬ (p.Build.Include ≠ none ∧ p.Build.Exclude ≠ none)) :
    validate p =
      match validateLicenses p.Project.Licenses with
      | some err => some err
      | none => validateBuildpacks p.Build.Buildpacks := by
  have h0 : (p.Build.Exclude.isSome && p.Build.Include.isSome) = false := by
    cases hi : p.Build.Include <;> cases he : p.Build.Exclude <;> simp_all
  unfold validate
  simp only [h0, Bool.false_eq_true, if_false]
  cases hl : p.Project.Licenses with
  | nil => simp [validateLicenses]
  | cons a rest => simp

/-- C19: `validate` returns nil exactly when (1) `build.include` and
`build.exclude` are not both defined, (2) every license has a non-empty type or
a non-empty uri, and (3) every buildpack entry has a non-empty id or a
non-empty uri and does not have both a non-empty uri and a non-empty version.
The zero descriptor is accepted, and a descriptor that satisfies (1) and (3)
but holds a license with neither type nor uri is rejected, with the license
error. -/
theorem validate_eq_none_iff (p : Descriptor) :
    (validate p = none ↔
      ¬ (p.Build.Include ≠ none ∧ p.Build.Exclude ≠ none) ∧
      (∀ l ∈ p.Project.Licenses, l.Type_ ≠ "" ∨ l.URI ≠ "") ∧
      (∀ bp ∈ p.Build.Buildpacks,
        (bp.ID ≠ "" ∨ bp.URI ≠ "") ∧ ¬ (bp.URI ≠ "" ∧ bp.Version ≠ ""))) ∧
    validate {} = none ∧
    (¬ (p.Build.Include ≠ none ∧ p.Build.Exclude ≠ none) →
      (∀ bp ∈ p.Build.Buildpacks,
        (bp.ID ≠ "" ∨ bp.URI ≠ "") ∧ ¬ (bp.URI ≠ "" ∧ bp.Version ≠ "")) →
      (∃ l ∈ p.Project.Licenses, l.Type_ = "" ∧ l.URI = "") →
      validate p = some "project.toml: must have a type or uri defined for each license") := by
  refine ⟨?_, rfl, ?_⟩
  · by_cases hboth : p.Build.Include ≠ none ∧ p.Build.Exclude ≠ none
    · have hv := (validate_both_defined p hboth.1 hboth.2)
      constructor
      · intro h
        rw [hv] at h
        simp at h
      · intro h
        exact absurd hboth h.1
    · rw [validate_of_not_both p hboth]
      constructor
      · intro h
        cases hl : validateLicenses p.Project.Licenses with
        | some e => rw [hl] at h; simp at h
        | none =>
          rw [hl] at h
          exact ⟨hboth, (validateLicenses_eq_none_iff _).mp hl,
            (validateBuildpacks_eq_none_iff _).mp h⟩
      · rintro ⟨_, h2, h3⟩
        rw [(validateLicenses_eq_none_iff _).mpr h2]
        exact (validateBuildpacks_eq_none_iff _).mpr h3
  · intro hboth _ hl
    rw [validate_of_not_both p hboth]
    have hsome : validateLicenses p.Project.Licenses =
        some "project.toml: must have a type or uri defined for each license" :=
      validateLicenses_eq_some _ hl
    rw [hsome]

end project

namespace project

/-- C20: `ReadProjectDescriptor` returns a nil error exactly when the file is
read, its content is decoded and `validate` accepts the decoded descriptor.
When reading or decoding fails it returns the zero descriptor with that error;
when only validation fails it returns the error of `validate` with the decoded
descriptor, which is not the zero descriptor. -/
theorem ReadProjectDescriptor_spec (env : Env) (pathToFile : String) :
    ((ReadProjectDescriptor env pathToFile).2 = none ↔
      ∃ contents d, env.ReadFile (env.Clean pathToFile) = .ok contents ∧
        env.Decode contents = .ok d ∧ validate d = none) ∧
    (∀ err, env.ReadFile (env.Clean pathToFile) = .error err →
      ReadProjectDescriptor env pathToFile = ({}, some err)) ∧
    (∀ contents err, env.ReadFile (env.Clean pathToFile) = .ok contents →
      env.Decode contents = .error err →
      ReadProjectDescriptor env pathToFile = ({}, some err)) ∧
    (∀ contents d err, env.ReadFile (env.Clean pathToFile) = .ok contents →
      env.Decode contents = .ok d → validate d = some err →
      ReadProjectDescriptor env pathToFile = (d, some err) ∧
        (ReadProjectDescriptor env pathToFile).1 ≠ {}) := by
  refine ⟨?_, ?_, ?_, ?_⟩
  · unfold ReadProjectDescriptor
    cases hr : env.ReadFile (env.Clean pathToFile) with
    | error e => simp
    | ok contents =>
      cases hd : env.Decode contents with
      | error e => simp [hd]
      | ok d => simp [hd]
  · intro err hr
    simp [ReadProjectDescriptor, hr]
  · intro contents err hr hd
    simp [ReadProjectDescriptor, hr, hd]
  · intro contents d err hr hd hv
    have heq : ReadProjectDescriptor env pathToFile = (d, some err) := by
      simp [ReadProjectDescriptor, hr, hd, hv]
    refine ⟨heq, ?_⟩
    rw [heq]
    intro hzero
    have hz : validate d = none := by
      rw [show d = ({} : Descriptor) from hzero]
      rfl
    rw [hz] at hv
    simp at hv

end project

namespace project

theorem validateLicenses_cases (ls : List dist.License) :
    validateLicenses ls = none ∨
    validateLicenses ls =
      some "project.toml: must have a type or uri defined for each license" := by
  induction ls with
  | nil => exact Or.inl rfl
  | cons a rest ih =>
    unfold validateLicenses
    split
    · exact Or.inr rfl
    · exact ih

theorem validateBuildpacks_cases (bps : List Buildpack) :
    validateBuildpacks bps = none ∨
    validateBuildpacks bps = some "project.toml: buildpacks must have an id or url defined" ∨
    validateBuildpacks bps =
      some "project.toml: buildpacks cannot have both uri and version defined" := by
  induction bps with
  | nil => exact Or.inl rfl
  | cons a rest ih =>
    unfold validateBuildpacks
    split
    · exact Or.inr (Or.inl rfl)
    · split
      · exact Or.inr (Or.inr rfl)
      · exact ih

theorem validate_nil_iff (p : Descriptor) :
    validate p = none ↔
      ¬ (p.Build.Include ≠ none ∧ p.Build.Exclude ≠ none) ∧
      (∀ l ∈ p.Project.Licenses, l.Type_ ≠ "" ∨ l.URI ≠ "") ∧
      (∀ bp ∈ p.Build.Buildpacks,
        (bp.ID ≠ "" ∨ bp.URI ≠ "") ∧ ¬ (bp.URI ≠ "" ∧ bp.Version ≠ "")) := by
  by_cases hboth : p.Build.Include ≠ none ∧ p.Build.Exclude ≠ none
  · have hv := (validate_both_defined p hboth.1 hboth.2)
    constructor
    · intro h
      rw [hv] at h
      simp at h
    · intro h
      exact absurd hboth h.1
  · rw [validate_of_not_both p hboth]
    constructor
    · intro h
      cases hl : validateLicenses p.Project.Licenses with
      | some e => rw [hl] at h; simp at h
      | none =>
        rw [hl] at h
        exact ⟨hboth, (validateLicenses_eq_none_iff _).mp hl,
          (validateBuildpacks_eq_none_iff _).mp h⟩
    · rintro ⟨_, h2, h3⟩
      rw [(validateLicenses_eq_none_iff _).mpr h2]
      exact (validateBuildpacks_eq_none_iff _).mpr h3

/-- The license and buildpack loops never return the include/exclude error. -/
theorem validate_later_checks_ne (ls : List dist.License) (bps : List Buildpack) :
    (match validateLicenses ls with
      | some err => some err
      | none => validateBuildpacks bps) ≠
      some "project.toml: cannot have both include and exclude defined" := by
  rcases validateLicenses_cases ls with h | h
  · rw [h]
    rcases validateBuildpacks_cases bps with h2 | h2 | h2
    · rw [h2]
      exact fun hc => Option.noConfusion hc
    · rw [h2]
      show some "project.toml: buildpacks must have an id or url defined" ≠ _
      decide
    · rw [h2]
      show some "project.toml: buildpacks cannot have both uri and version defined" ≠ _
      decide
  · rw [h]
    show some "project.toml: must have a type or uri defined for each license" ≠ _
    decide

theorem validate_congr (p q : Descriptor)
    (hi : p.Build.Include.isSome = q.Build.Include.isSome)
    (he : p.Build.Exclude.isSome = q.Build.Exclude.isSome)
    (hl : validateLicenses p.Project.Licenses = validateLicenses q.Project.Licenses)
    (hb : validateBuildpacks p.Build.Buildpacks = validateBuildpacks q.Build.Buildpacks) :
    validate p = validate q := by
  by_cases hboth : p.Build.Include ≠ none ∧ p.Build.Exclude ≠ none
  · have hq : q.Build.Include ≠ none ∧ q.Build.Exclude ≠ none := by
      constructor
      · apply Option.isSome_iff_ne_none.mp
        rw [← hi]
        exact Option.isSome_iff_ne_none.mpr hboth.1
      · apply Option.isSome_iff_ne_none.mp
        rw [← he]
        exact Option.isSome_iff_ne_none.mpr hboth.2
    rw [validate_both_defined p hboth.1 hboth.2, validate_both_defined q hq.1 hq.2]
  · have hq : ¬ (q.Build.Include ≠ none ∧ q.Build.Exclude ≠ none) := by
      rintro ⟨h1, h2⟩
      apply hboth
      constructor
      · apply Option.isSome_iff_ne_none.mp
        rw [hi]
        exact Option.isSome_iff_ne_none.mpr h1
      · apply Option.isSome_iff_ne_none.mp
        rw [he]
        exact Option.isSome_iff_ne_none.mpr h2
    rw [validate_of_not_both p hboth, validate_of_not_both q hq, hl, hb]

theorem validateBuildpacks_cons_valid (a : Buildpack) (rest : List Buildpack)
    (ha : ¬ ((a.ID = "" ∧ a.URI = "") ∨ (a.URI ≠ "" ∧ a.Version ≠ ""))) :
    validateBuildpacks (a :: rest) = validateBuildpacks rest := by
  have h1 : (a.ID == "" && a.URI == "") = false := by
    by_contra hc
    apply ha
    left
    simpa using hc
  have h2 : (a.URI != "" && a.Version != "") = false := by
    by_contra hc
    apply ha
    right
    simpa using hc
  show (if (a.ID == "" && a.URI == "") = true then _
    else if (a.URI != "" && a.Version != "") = true then _ else validateBuildpacks rest) = _
  simp only [h1, h2, Bool.false_eq_true, if_false]

theorem validateBuildpacks_append_valid (pre rest : List Buildpack)
    (h : ∀ b ∈ pre, ¬ ((b.ID = "" ∧ b.URI = "") ∨ (b.URI ≠ "" ∧ b.Version ≠ ""))) :
    validateBuildpacks (pre ++ rest) = validateBuildpacks rest := by
  induction pre with
  | nil => rfl
  | cons a pre ih =>
    rw [List.cons_append, validateBuildpacks_cons_valid a _ (h a (List.mem_cons_self _ _))]
    exact ih (fun b hb => h b (List.mem_cons_of_mem _ hb))

theorem validateBuildpacks_cons_no_id_uri (bp : Buildpack) (post : List Buildpack)
    (h : bp.ID = "" ∧ bp.URI = "") :
    validateBuildpacks (bp :: post) =
      some "project.toml: buildpacks must have an id or url defined" := by
  unfold validateBuildpacks
  simp [h.1, h.2]

theorem validateBuildpacks_cons_uri_version (bp : Buildpack) (post : List Buildpack)
    (h : bp.URI ≠ "" ∧ bp.Version ≠ "") :
    validateBuildpacks (bp :: post) =
      some "project.toml: buildpacks cannot have both uri and version defined" := by
  unfold validateBuildpacks
  simp [h.1, h.2]

theorem exists_first_invalid (bps : List Buildpack)
    (h : ∃ bp ∈ bps, (bp.ID = "" ∧ bp.URI = "") ∨ (bp.URI ≠ "" ∧ bp.Version ≠ "")) :
    ∃ pre bp post, bps = pre ++ bp :: post ∧
      (∀ b ∈ pre, ¬ ((b.ID = "" ∧ b.URI = "") ∨ (b.URI ≠ "" ∧ b.Version ≠ ""))) ∧
      ((bp.ID = "" ∧ bp.URI = "") ∨ (bp.URI ≠ "" ∧ bp.Version ≠ "")) := by
  induction bps with
  | nil => simp at h
  | cons a rest ih =>
    by_cases ha : (a.ID = "" ∧ a.URI = "") ∨ (a.URI ≠ "" ∧ a.Version ≠ "")
    · exact ⟨[], a, rest, rfl, by simp, ha⟩
    · obtain ⟨bp, hmem, hbp⟩ := h
      rcases List.mem_cons.mp hmem with heq | hin
      · subst heq
        exact absurd hbp ha
      · obtain ⟨pre, b, post, heq, hpre, hb⟩ := ih ⟨bp, hin, hbp⟩
        refine ⟨a :: pre, b, post, by rw [heq]; rfl, ?_, hb⟩
        intro x hx
        rcases List.mem_cons.mp hx with hxa | hxp
        · rw [hxa]
          exact ha
        · exact hpre x hxp

theorem validateLicenses_map (ls ms : List dist.License)
    (h : ls.map (fun l => (l.Type_, l.URI)) = ms.map (fun l => (l.Type_, l.URI))) :
    validateLicenses ls = validateLicenses ms := by
  induction ls generalizing ms with
  | nil =>
    cases ms with
    | nil => rfl
    | cons m ms => simp at h
  | cons a ls ih =>
    cases ms with
    | nil => simp at h
    | cons m ms =>
      simp only [List.map_cons, List.cons.injEq, Prod.mk.injEq] at h
      obtain ⟨⟨h1, h2⟩, h3⟩ := h
      unfold validateLicenses
      rw [h1, h2, ih ms h3]

theorem validateBuildpacks_map (bs cs : List Buildpack)
    (h : bs.map (fun b => (b.ID, b.URI, b.Version)) = cs.map (fun b => (b.ID, b.URI, b.Version))) :
    validateBuildpacks bs = validateBuildpacks cs := by
  induction bs generalizing cs with
  | nil =>
    cases cs with
    | nil => rfl
    | cons c cs => simp at h
  | cons a bs ih =>
    cases cs with
    | nil => simp at h
    | cons c cs =>
      simp only [List.map_cons, List.cons.injEq, Prod.mk.injEq] at h
      obtain ⟨⟨h1, h2, h3⟩, h4⟩ := h
      unfold validateBuildpacks
      rw [h1, h2, h3, ih cs h4]

/-- C21: the include/exclude check of `validate` only looks at whether the two
lists are defined. With both defined the descriptor is rejected with the
include/exclude error, also when both are empty; with exactly one defined the
check passes whatever the list holds: the result is that of the license and
buildpack checks, the same as with neither list defined, and is never the
include/exclude error. Two descriptors with the same licenses and buildpacks
whose lists are defined alike get the same result. -/
theorem validate_definedness_only (p : Descriptor) (incl excl : List String) :
    validate { p with Build := { p.Build with Include := some [], Exclude := some [] } } =
      some "project.toml: cannot have both include and exclude defined" ∧
    validate { p with Build := { p.Build with Include := some incl, Exclude := some excl } } =
      some "project.toml: cannot have both include and exclude defined" ∧
    validate { p with Build := { p.Build with Include := some incl, Exclude := none } } =
      (match validateLicenses p.Project.Licenses with
        | some err => some err
        | none => validateBuildpacks p.Build.Buildpacks) ∧
    validate { p with Build := { p.Build with Include := none, Exclude := some excl } } =
      (match validateLicenses p.Project.Licenses with
        | some err => some err
        | none => validateBuildpacks p.Build.Buildpacks) ∧
    validate { p with Build := { p.Build with Include := none, Exclude := none } } =
      (match validateLicenses p.Project.Licenses with
        | some err => some err
        | none => validateBuildpacks p.Build.Buildpacks) ∧
    validate { p with Build := { p.Build with Include := some incl, Exclude := none } } ≠
      some "project.toml: cannot have both include and exclude defined" ∧
    validate { p with Build := { p.Build with Include := none, Exclude := some excl } } ≠
      some "project.toml: cannot have both include and exclude defined" ∧
    (∀ q : Descriptor, q.Project.Licenses = p.Project.Licenses →
      q.Build.Buildpacks = p.Build.Buildpacks →
      (q.Build.Include = none ↔ p.Build.Include = none) →
      (q.Build.Exclude = none ↔ p.Build.Exclude = none) →
      validate q = validate p) := by
  have h1 : validate { p with Build := { p.Build with Include := some incl, Exclude := none } } =
      (match validateLicenses p.Project.Licenses with
        | some err => some err
        | none => validateBuildpacks p.Build.Buildpacks) :=
    validate_of_not_both _ (by simp)
  have h2 : validate { p with Build := { p.Build with Include := none, Exclude := some excl } } =
      (match validateLicenses p.Project.Licenses with
        | some err => some err
        | none => validateBuildpacks p.Build.Buildpacks) :=
    validate_of_not_both _ (by simp)
  have h3 : validate { p with Build := { p.Build with Include := none, Exclude := none } } =
      (match validateLicenses p.Project.Licenses with
        | some err => some err
        | none => validateBuildpacks p.Build.Buildpacks) :=
    validate_of_not_both _ (by simp)
  refine ⟨validate_both_defined _ (by simp) (by simp),
    validate_both_defined _ (by simp) (by simp), h1, h2, h3, ?_, ?_, ?_⟩
  · rw [h1]
    exact validate_later_checks_ne _ _
  · rw [h2]
    exact validate_later_checks_ne _ _
  · intro q hl hb hi he
    apply validate_congr
    · cases hqi : q.Build.Include <;> cases hpi : p.Build.Include <;> simp_all
    · cases hqe : q.Build.Exclude <;> cases hpe : p.Build.Exclude <;> simp_all
    · rw [hl]
    · rw [hb]

/-- C22: `validate` reports its errors in a fixed order. With include and
exclude both defined the include/exclude error is returned, whatever the
licenses and buildpacks are; otherwise, with a license that has neither type
nor uri, the license error is returned, whatever the buildpacks are; a
buildpack error is only returned when both earlier checks pass, and when they
pass the result is that of the buildpack loop. -/
theorem validate_precedence (p : Descriptor) :
    (p.Build.Include ≠ none ∧ p.Build.Exclude ≠ none →
      ∀ (ls : List dist.License) (bps : List Buildpack),
        validate { p with Project := { p.Project with Licenses := ls },
                          Build := { p.Build with Buildpacks := bps } } =
          some "project.toml: cannot have both include and exclude defined") ∧
    (¬ (p.Build.Include ≠ none ∧ p.Build.Exclude ≠ none) →
      (∃ l ∈ p.Project.Licenses, l.Type_ = "" ∧ l.URI = "") →
      ∀ bps : List Buildpack,
        validate { p with Build := { p.Build with Buildpacks := bps } } =
          some "project.toml: must have a type or uri defined for each license") ∧
    (validate p = some "project.toml: buildpacks must have an id or url defined" ∨
      validate p = some "project.toml: buildpacks cannot have both uri and version defined" →
      ¬ (p.Build.Include ≠ none ∧ p.Build.Exclude ≠ none) ∧
      ∀ l ∈ p.Project.Licenses, l.Type_ ≠ "" ∨ l.URI ≠ "") ∧
    (¬ (p.Build.Include ≠ none ∧ p.Build.Exclude ≠ none) →
      (∀ l ∈ p.Project.Licenses, l.Type_ ≠ "" ∨ l.URI ≠ "") →
      validate p = validateBuildpacks p.Build.Buildpacks) := by
  refine ⟨?_, ?_, ?_, ?_⟩
  · rintro ⟨hi, he⟩ ls bps
    exact validate_both_defined _ hi he
  · intro hboth hl bps
    have hsome : validateLicenses p.Project.Licenses =
        some "project.toml: must have a type or uri defined for each license" :=
      validateLicenses_eq_some _ hl
    have hv := validate_of_not_both
      { p with Build := { p.Build with Buildpacks := bps } } hboth
    rw [hv]
    show (match validateLicenses p.Project.Licenses with
      | some err => some err
      | none => validateBuildpacks bps) = _
    rw [hsome]
  · intro hv
    by_cases hboth : p.Build.Include ≠ none ∧ p.Build.Exclude ≠ none
    · rw [validate_both_defined p hboth.1 hboth.2] at hv
      rcases hv with hv | hv <;> exact absurd hv (by decide)
    · refine ⟨hboth, ?_⟩
      rw [validate_of_not_both p hboth] at hv
      rcases validateLicenses_cases p.Project.Licenses with h | h
      · exact (validateLicenses_eq_none_iff _).mp h
      · rw [h] at hv
        have hv2 : some "project.toml: must have a type or uri defined for each license" =
              some "project.toml: buildpacks must have an id or url defined" ∨
            some "project.toml: must have a type or uri defined for each license" =
              some "project.toml: buildpacks cannot have both uri and version defined" := hv
        rcases hv2 with hv2 | hv2 <;> exact absurd hv2 (by decide)
  · intro hboth hl
    rw [validate_of_not_both p hboth, (validateLicenses_eq_none_iff _).mpr hl]

/-- C23: when the include/exclude and license checks pass and some buildpack
entry is invalid, the error of `validate` is that of the first invalid entry in
list order: "buildpacks must have an id or url defined" (after "project.toml: ")
if it has an empty id and an empty uri, "buildpacks cannot have both uri and
version defined" if it has a non-empty uri and a non-empty version. Such a
first invalid entry exists, and no entry meets both conditions. -/
theorem validate_first_invalid_buildpack (p : Descriptor)
    (hie : ¬ (p.Build.Include ≠ none ∧ p.Build.Exclude ≠ none))
    (hl : ∀ l ∈ p.Project.Licenses, l.Type_ ≠ "" ∨ l.URI ≠ "")
    (hb : ∃ bp ∈ p.Build.Buildpacks,
      (bp.ID = "" ∧ bp.URI = "") ∨ (bp.URI ≠ "" ∧ bp.Version ≠ "")) :
    (∃ pre bp post, p.Build.Buildpacks = pre ++ bp :: post ∧
      (∀ b ∈ pre, ¬ ((b.ID = "" ∧ b.URI = "") ∨ (b.URI ≠ "" ∧ b.Version ≠ ""))) ∧
      ((bp.ID = "" ∧ bp.URI = "") ∨ (bp.URI ≠ "" ∧ bp.Version ≠ ""))) ∧
    (∀ pre bp post, p.Build.Buildpacks = pre ++ bp :: post →
      (∀ b ∈ pre, ¬ ((b.ID = "" ∧ b.URI = "") ∨ (b.URI ≠ "" ∧ b.Version ≠ ""))) →
      (bp.ID = "" ∧ bp.URI = "" →
        validate p = some ("project.toml: " ++ "buildpacks must have an id or url defined")) ∧
      (bp.URI ≠ "" ∧ bp.Version ≠ "" →
        validate p =
          some ("project.toml: " ++ "buildpacks cannot have both uri and version defined"))) ∧
    (∀ bp : Buildpack, ¬ ((bp.ID = "" ∧ bp.URI = "") ∧ (bp.URI ≠ "" ∧ bp.Version ≠ ""))) := by
  have hv : validate p = validateBuildpacks p.Build.Buildpacks := by
    rw [validate_of_not_both p hie, (validateLicenses_eq_none_iff _).mpr hl]
  refine ⟨exists_first_invalid _ hb, ?_, ?_⟩
  · intro pre bp post heq hpre
    rw [hv, heq, validateBuildpacks_append_valid pre _ hpre]
    constructor
    · intro h
      rw [validateBuildpacks_cons_no_id_uri bp post h]
      rfl
    · intro h
      rw [validateBuildpacks_cons_uri_version bp post h]
      rfl
  · rintro bp ⟨⟨_, h1⟩, h2, _⟩
    exact h2 h1

/-- Witness of C23: after a valid entry, an entry with a uri and a version
comes before an entry with neither id nor uri; the error is that of the
former. -/
theorem validate_first_invalid_buildpack_witness :
    validate { Project := { Licenses := [{ Type_ := "MIT" }] },
               Build := { Exclude := some ["*.sh"],
                          Buildpacks := [{ ID := "a/b" },
                            { URI := "descriptor-buildpack", Version := "1.0" },
                            { Version := "2.0" }] } } =
      some "project.toml: buildpacks cannot have both uri and version defined" :=
  ((validate_first_invalid_buildpack
      { Project := { Licenses := [{ Type_ := "MIT" }] },
        Build := { Exclude := some ["*.sh"],
                   Buildpacks := [{ ID := "a/b" },
                     { URI := "descriptor-buildpack", Version := "1.0" },
                     { Version := "2.0" }] } }
      (by simp) (by simp)
      ⟨{ Version := "2.0" }, by simp, Or.inl ⟨rfl, rfl⟩⟩).2.1
    [{ ID := "a/b" }] { URI := "descriptor-buildpack", Version := "1.0" } [{ Version := "2.0" }]
    rfl (by decide)).2 ⟨by decide, by decide⟩

/-- C24: whether `validate` accepts a descriptor does not change when the
buildpacks and the licenses are permuted, and a descriptor with the buildpacks
`a ++ b` is accepted exactly when the descriptor with the buildpacks `a` and
the one with the buildpacks `b`, the other fields being the same, are both
accepted. -/
theorem validate_perm_append (p : Descriptor) (ls : List dist.License)
    (bps a b : List Buildpack)
    (hls : ls.Perm p.Project.Licenses) (hbps : bps.Perm p.Build.Buildpacks) :
    (validate { p with Project := { p.Project with Licenses := ls },
                       Build := { p.Build with Buildpacks := bps } } = none ↔
      validate p = none) ∧
    (validate { p with Build := { p.Build with Buildpacks := a ++ b } } = none ↔
      validate { p with Build := { p.Build with Buildpacks := a } } = none ∧
      validate { p with Build := { p.Build with Buildpacks := b } } = none) := by
  constructor
  · rw [validate_nil_iff, validate_nil_iff]
    simp only [hls.mem_iff, hbps.mem_iff]
  · rw [validate_nil_iff, validate_nil_iff, validate_nil_iff]
    simp only [List.mem_append]
    constructor
    · rintro ⟨h1, h2, h3⟩
      exact ⟨⟨h1, h2, fun bp hbp => h3 bp (Or.inl hbp)⟩,
        ⟨h1, h2, fun bp hbp => h3 bp (Or.inr hbp)⟩⟩
    · rintro ⟨⟨h1, h2, h3⟩, ⟨_, _, h4⟩⟩
      exact ⟨h1, h2, fun bp hbp => hbp.elim (h3 bp) (h4 bp)⟩

/-- Witness of C24: two licenses and two buildpacks swapped, the second
buildpack being invalid; both descriptors are rejected, and the list splits
into an accepted and a rejected part. -/
theorem validate_perm_append_witness :
    ((validate { Project := { Licenses := [{ URI := "https://example.com/license" },
                                           { Type_ := "MIT" }] },
                 Build := { Buildpacks := [{ Version := "2.0" }, { ID := "a/b" }] } } = none ↔
      validate { Project := { Licenses := [{ Type_ := "MIT" },
                                           { URI := "https://example.com/license" }] },
                 Build := { Buildpacks := [{ ID := "a/b" }, { Version := "2.0" }] } } = none) ∧
    (validate { Project := { Licenses := [{ Type_ := "MIT" },
                                          { URI := "https://example.com/license" }] },
                Build := { Buildpacks := [{ ID := "a/b" }] ++ [{ Version := "2.0" }] } } = none ↔
      validate { Project := { Licenses := [{ Type_ := "MIT" },
                                           { URI := "https://example.com/license" }] },
                 Build := { Buildpacks := [{ ID := "a/b" }] } } = none ∧
      validate { Project := { Licenses := [{ Type_ := "MIT" },
                                           { URI := "https://example.com/license" }] },
                 Build := { Buildpacks := [{ Version := "2.0" }] } } = none)) :=
  validate_perm_append
    { Project := { Licenses := [{ Type_ := "MIT" }, { URI := "https://example.com/license" }] },
      Build := { Buildpacks := [{ ID := "a/b" }, { Version := "2.0" }] } }
    [{ URI := "https://example.com/license" }, { Type_ := "MIT" }]
    [{ Version := "2.0" }, { ID := "a/b" }]
    [{ ID := "a/b" }] [{ Version := "2.0" }]
    (List.Perm.swap _ _ []) (List.Perm.swap _ _ [])

/-- C25: the result of `validate` does not depend on the project name, version
and source url, on the builder, the environment, the metadata, the contents of
include and exclude, or the script of a buildpack. Two descriptors whose
include lists are both defined or both undefined, likewise their exclude
lists, with the same type and uri for every license and the same id, uri and
version for every buildpack, in order, get the same result. -/
theorem validate_irrelevant_fields (p q : Descriptor)
    (hi : p.Build.Include.isSome = q.Build.Include.isSome)
    (he : p.Build.Exclude.isSome = q.Build.Exclude.isSome)
    (hl : p.Project.Licenses.map (fun l => (l.Type_, l.URI)) =
      q.Project.Licenses.map (fun l => (l.Type_, l.URI)))
    (hb : p.Build.Buildpacks.map (fun b => (b.ID, b.URI, b.Version)) =
      q.Build.Buildpacks.map (fun b => (b.ID, b.URI, b.Version))) :
    validate p = validate q ∧
    ∀ (name version sourceURL builder : String) (env : List EnvVar)
      (metadata : List (String × TomlValue)) (script : Buildpack → Script),
      validate
        { Project := { p.Project with Name := name, Version := version, SourceURL := sourceURL },
          Build := { p.Build with
            Builder := builder, Env := env,
            Buildpacks := p.Build.Buildpacks.map (fun b => { b with Script := script b }) },
          Metadata := metadata } = validate q := by
  have h1 : validate p = validate q :=
    validate_congr p q hi he (validateLicenses_map _ _ hl) (validateBuildpacks_map _ _ hb)
  refine ⟨h1, ?_⟩
  intro name version sourceURL builder env metadata script
  rw [← h1]
  apply validate_congr
  · rfl
  · rfl
  · rfl
  · apply validateBuildpacks_map
    simp only [List.map_map]
    apply List.map_congr_left
    intro b _
    rfl

/-- Witness of C25: two descriptors that differ in the name, the version, the
source url, the builder, the environment, the metadata, the patterns of
exclude and the script of the buildpack. -/
theorem validate_irrelevant_fields_witness :
    validate
      { Project := { Name := "exclude test", Version := "1.0.2",
                     SourceURL := "https://example.com", Licenses := [{ Type_ := "MIT" }] },
        Build := { Exclude := some ["*.sh"], Builder := "some/builder",
                   Env := [{ Name := "ENV_1", Value := "VAL_1" }],
                   Buildpacks := [{ ID := "example/lua",
                                    Script := { API := "0.2", Inline := "date" } }] },
        Metadata := [("pipeline", TomlValue.str "Lucerne")] } =
    validate
      { Project := { Licenses := [{ Type_ := "MIT" }] },
        Build := { Exclude := some [], Buildpacks := [{ ID := "example/lua" }] } } :=
  (validate_irrelevant_fields _ _ rfl rfl rfl rfl).1

end project

/-! ## Theorems: taskKey -/

namespace sha256

theorem Sum256_length (msg : List Nat) : (Sum256 msg).length = 32 := by
  simp [Sum256, be32]

end sha256

namespace hex

theorem hextable_getD_toNat_le (n : Nat) : (hextable.getD n '0').toNat ≤ 0x7f := by
  by_cases h : n < 16
  · interval_cases n <;> decide
  · have hlen : hextable.length = 16 := by decide
    rw [List.getD_eq_default _ _ (by omega)]
    decide

theorem hextable_getD_mem (n : Nat) : hextable.getD n '0' ∈ hextable := by
  by_cases h : n < 16
  · interval_cases n <;> decide
  · have hlen : hextable.length = 16 := by decide
    rw [List.getD_eq_default _ _ (by omega)]
    decide

theorem EncodeToString_mem_hextable (src : List Nat) :
    ∀ ch ∈ (EncodeToString src).data, ch ∈ hextable := by
  intro ch hch
  unfold EncodeToString at hch
  obtain ⟨v, _, hv⟩ := List.mem_flatMap.mp hch
  rcases List.mem_cons.mp hv with h | h
  · rw [h]
    exact hextable_getD_mem _
  · rw [List.mem_singleton.mp h]
    exact hextable_getD_mem _

theorem EncodeToString_length (src : List Nat) :
    (EncodeToString src).length = 2 * src.length := by
  unfold EncodeToString
  rw [String.length_mk]
  induction src with
  | nil => rfl
  | cons v rest ih =>
    rw [List.flatMap_cons, List.length_append, ih, List.length_cons, List.length_cons,
      List.length_cons, List.length_nil]
    omega

end hex

namespace acceptance

theorem bytes_append (s t : String) : bytes (s ++ t) = bytes s ++ bytes t := by
  unfold bytes
  rw [String.data_append, List.flatMap_append]

theorem utf8EncodeChar_ascii (c : Char) (h : c.toNat ≤ 0x7f) : utf8EncodeChar c = [c.toNat] := by
  unfold utf8EncodeChar
  simp only [h, if_true]

theorem bytes_EncodeToString_length (src : List Nat) :
    (bytes (hex.EncodeToString src)).length = 2 * src.length := by
  unfold bytes hex.EncodeToString
  induction src with
  | nil => rfl
  | cons v rest ih =>
    rw [List.flatMap_cons, List.flatMap_append, List.length_append, ih, List.flatMap_cons,
      List.flatMap_cons, List.flatMap_nil,
      utf8EncodeChar_ascii _ (hex.hextable_getD_toNat_le _),
      utf8EncodeChar_ascii _ (hex.hextable_getD_toNat_le _)]
    simp only [List.length_append, List.length_cons, List.length_nil]
    omega

theorem foldl_Write_written (l : List String) (d : sha256.digest) :
    (l.foldl (fun h v => h.Write (bytes v)) d).written = d.written ++ l.flatMap bytes := by
  induction l generalizing d with
  | nil => simp
  | cons a rest ih =>
    rw [List.foldl_cons, ih, List.flatMap_cons]
    simp only [sha256.digest.Write, List.append_assoc]

/-- The key only depends on the arguments through the bytes they contribute,
in order. -/
theorem taskKey_eq_concat (pfx : String) (args : List String) :
    taskKey pfx args = pfx ++ "-" ++ hex.EncodeToString (sha256.Sum256 (args.flatMap bytes)) := by
  have h2 : (args.foldl (fun h v => h.Write (bytes v)) sha256.New).Sum [] =
      sha256.Sum256 (args.flatMap bytes) := by
    unfold sha256.digest.Sum
    rw [foldl_Write_written, List.nil_append]
    unfold sha256.New
    rw [List.nil_append]
  show pfx ++ "-" ++ hex.EncodeToString
    ((args.foldl (fun h v => h.Write (bytes v)) sha256.New).Sum []) = _
  rw [h2]

theorem taskKey_congr (pfx : String) (args1 args2 : List String)
    (h : args1.flatMap bytes = args2.flatMap bytes) : taskKey pfx args1 = taskKey pfx args2 := by
  rw [taskKey_eq_concat, taskKey_eq_concat, h]

end acceptance

namespace acceptance

/-- C5: the keys of `taskKey` are not unique. The argument lists `["ab", "c"]`
and `["a", "bc"]` differ, and so do `[]` and `[""]`, yet each pair receives the
same key under the same prefix, whatever the digests are: the arguments are
written to the hash one after the other without a separator. -/
theorem taskKey_not_unique :
    (["ab", "c"] : List String) ≠ ["a", "bc"] ∧
      taskKey "create-builder" ["ab", "c"] = taskKey "create-builder" ["a", "bc"] ∧
    ([] : List String) ≠ [""] ∧
      taskKey "create-builder" [] = taskKey "create-builder" [""] :=
  ⟨by decide, taskKey_congr _ _ _ (by decide), by decide, taskKey_congr _ _ _ (by decide)⟩

/-- C6: `taskKey prefix args` is the prefix, a dash and the lowercase
hexadecimal encoding (characters of "0123456789abcdef" only) of the SHA-256
digest of the bytes of the arguments written in order; its length in bytes is
the length of the prefix plus 65 (and so is its length in characters); with no
arguments the digest is that of the empty input, e3b0c442...7852b855. -/
theorem taskKey_spec (pfx : String) (args : List String) :
    taskKey pfx args = pfx ++ "-" ++ hex.EncodeToString (sha256.Sum256 (args.flatMap bytes)) ∧
    (∀ ch ∈ (hex.EncodeToString (sha256.Sum256 (args.flatMap bytes))).data,
      ch ∈ "0123456789abcdef".data) ∧
    (bytes (taskKey pfx args)).length = (bytes pfx).length + 65 ∧
    (taskKey pfx args).length = pfx.length + 65 ∧
    taskKey pfx [] = pfx ++ "-" ++ hex.EncodeToString (sha256.Sum256 []) ∧
    taskKey pfx [] =
      pfx ++ "-" ++ "e3b0c44298fc1c149afbf4c8996fb92427ae41e4649b934ca495991b7852b855" := by
  have hempty : hex.EncodeToString (sha256.Sum256 []) =
      "e3b0c44298fc1c149afbf4c8996fb92427ae41e4649b934ca495991b7852b855" := by decide
  have hdash : (bytes "-").length = 1 := by decide
  have hdash2 : ("-" : String).length = 1 := by decide
  have h0 : taskKey pfx [] = pfx ++ "-" ++ hex.EncodeToString (sha256.Sum256 []) :=
    taskKey_eq_concat pfx []
  refine ⟨taskKey_eq_concat pfx args, hex.EncodeToString_mem_hextable _, ?_, ?_, h0, ?_⟩
  · rw [taskKey_eq_concat, bytes_append, bytes_append, List.length_append, List.length_append,
      bytes_EncodeToString_length, sha256.Sum256_length, hdash]
  · rw [taskKey_eq_concat, String.length_append, String.length_append,
      hex.EncodeToString_length, sha256.Sum256_length, hdash2]
  · rw [h0, hempty]

end acceptance

namespace acceptance

theorem bytes_foldl_append (l : List String) (acc : String) :
    bytes (l.foldl (fun r s => r ++ s) acc) = bytes acc ++ l.flatMap bytes := by
  induction l generalizing acc with
  | nil => simp
  | cons a rest ih =>
    rw [List.foldl_cons, ih, bytes_append, List.flatMap_cons, List.append_assoc]

theorem bytes_join (l : List String) : bytes (String.join l) = l.flatMap bytes := by
  unfold String.join
  rw [bytes_foldl_append]
  rfl

theorem flatMap_bytes_filter (l : List String) :
    (l.filter (fun a => a != "")).flatMap bytes = l.flatMap bytes := by
  induction l with
  | nil => rfl
  | cons a rest ih =>
    by_cases ha : a = ""
    · subst ha
      rw [List.filter_cons_of_neg (by simp), List.flatMap_cons, ih]
      rfl
    · rw [List.filter_cons_of_pos (by simpa using ha), List.flatMap_cons, List.flatMap_cons, ih]

theorem taskKey_data (pfx : String) (args : List String) :
    (taskKey pfx args).data =
      pfx.data ++ '-' :: (hex.EncodeToString (sha256.Sum256 (args.flatMap bytes))).data := by
  rw [taskKey_eq_concat, String.data_append, String.data_append, List.append_assoc]
  rfl

theorem digest_data_length (msg : List Nat) :
    (hex.EncodeToString (sha256.Sum256 msg)).data.length = 64 := by
  have h := hex.EncodeToString_length (sha256.Sum256 msg)
  rw [sha256.Sum256_length] at h
  exact h

/-- C26: `taskKey` is injective in its prefix: equal keys have equal prefixes
(and equal digests). A key is its prefix, a dash and exactly 64 characters of
"0123456789abcdef", none of which is a dash, so the prefix is the key without
its last 65 characters, also when the prefix holds a dash itself. -/
theorem taskKey_prefix_injective (p1 p2 : String) (a1 a2 : List String)
    (h : taskKey p1 a1 = taskKey p2 a2) :
    p1 = p2 ∧
    hex.EncodeToString (sha256.Sum256 (a1.flatMap bytes)) =
      hex.EncodeToString (sha256.Sum256 (a2.flatMap bytes)) ∧
    (taskKey p1 a1).data =
      p1.data ++ '-' :: (hex.EncodeToString (sha256.Sum256 (a1.flatMap bytes))).data ∧
    (hex.EncodeToString (sha256.Sum256 (a1.flatMap bytes))).data.length = 64 ∧
    (∀ ch ∈ (hex.EncodeToString (sha256.Sum256 (a1.flatMap bytes))).data,
      ch ∈ "0123456789abcdef".data ∧ ch ≠ '-') ∧
    String.mk ((taskKey p1 a1).data.take ((taskKey p1 a1).data.length - 65)) = p1 := by
  have hd : p1.data ++ '-' :: (hex.EncodeToString (sha256.Sum256 (a1.flatMap bytes))).data =
      p2.data ++ '-' :: (hex.EncodeToString (sha256.Sum256 (a2.flatMap bytes))).data := by
    rw [← taskKey_data, ← taskKey_data, h]
  have hinj := List.append_inj_left' hd (by
    rw [List.length_cons, List.length_cons, digest_data_length, digest_data_length])
  have hinj2 := List.append_inj_right' hd (by
    rw [List.length_cons, List.length_cons, digest_data_length, digest_data_length])
  refine ⟨String.ext hinj, String.ext (List.cons.inj hinj2).2, taskKey_data p1 a1,
    digest_data_length _, ?_, ?_⟩
  · intro ch hch
    have hm := hex.EncodeToString_mem_hextable _ ch hch
    refine ⟨hm, ?_⟩
    intro hc
    rw [hc] at hm
    exact absurd hm (by decide)
  · apply String.ext
    show (taskKey p1 a1).data.take ((taskKey p1 a1).data.length - 65) = p1.data
    rw [taskKey_data, List.length_append, List.length_cons, digest_data_length,
      Nat.add_sub_cancel]
    exact List.take_left _ _

/-- Witness of C26: two calls with the prefix "create-builder", which holds a
dash, and different argument lists that receive the same key. -/
theorem taskKey_prefix_injective_witness :
    taskKey "create-builder" ["ab", "c"] = taskKey "create-builder" ["a", "bc"] ∧
    String.mk ((taskKey "create-builder" ["ab", "c"]).data.take
      ((taskKey "create-builder" ["ab", "c"]).data.length - 65)) = "create-builder" :=
  ⟨taskKey_congr _ _ _ (by decide),
    (taskKey_prefix_injective "create-builder" "create-builder" ["ab", "c"] ["a", "bc"]
      (taskKey_congr _ _ _ (by decide))).2.2.2.2.2⟩

/-- C27: `taskKey` depends on its arguments only through their concatenation:
the key of an argument list is the key of the single argument that is their
concatenation, so argument lists with the same concatenation receive the same
key, as `"ab", "c"` and `"a", "bc"` do, and empty arguments have no effect. -/
theorem taskKey_concat (pfx : String) (args : List String) (x : String) :
    taskKey pfx args = taskKey pfx [String.join args] ∧
    (∀ args2 : List String, String.join args = String.join args2 →
      taskKey pfx args = taskKey pfx args2) ∧
    taskKey pfx ["ab", "c"] = taskKey pfx ["a", "bc"] ∧
    taskKey pfx ["", x] = taskKey pfx [x] ∧
    taskKey pfx (args.filter (fun a => a != "")) = taskKey pfx args := by
  have hj : ∀ l : List String, taskKey pfx l = taskKey pfx [String.join l] := by
    intro l
    apply taskKey_congr
    rw [List.flatMap_cons, List.flatMap_nil, List.append_nil, bytes_join]
  refine ⟨hj args, ?_, taskKey_congr _ _ _ (by decide), ?_, ?_⟩
  · intro args2 h
    rw [hj args, hj args2, h]
  · apply taskKey_congr
    simp only [List.flatMap_cons, List.flatMap_nil, List.append_nil]
    rfl
  · exact taskKey_congr _ _ _ (flatMap_bytes_filter args)

end acceptance

/-! ## Theorems: CreateBuilder -/

namespace pack

theorem CreateBuilder_err_of_config (c : Client) (opts : CreateBuilderOptions) (e : String)
    (h : ValidateConfig opts.Config = some e) : (CreateBuilder c opts).err = some e := by
  unfold CreateBuilder
  rw [h]
  rfl

theorem CreateBuilder_err_of_runImage (c : Client) (opts : CreateBuilderOptions) (e : String)
    (h0 : ValidateConfig opts.Config = none)
    (h : (validateRunImageConfig c opts).2 = some e) : (CreateBuilder c opts).err = some e := by
  unfold CreateBuilder
  rw [h0]
  rcases hv : validateRunImageConfig c opts with ⟨ws, r⟩
  rw [hv] at h
  simp only at h
  subst h
  rfl

theorem CreateBuilder_err_of_base (c : Client) (opts : CreateBuilderOptions) (e : String)
    (h0 : ValidateConfig opts.Config = none)
    (h1 : (validateRunImageConfig c opts).2 = none)
    (h : createBaseBuilder c opts = .error e) : (CreateBuilder c opts).err = some e := by
  unfold CreateBuilder
  rw [h0]
  rcases hv : validateRunImageConfig c opts with ⟨ws, r⟩
  rw [hv] at h1
  simp only at h1
  subst h1
  simp only [h]
  rfl

theorem CreateBuilder_err_of_buildpacks (c : Client) (opts : CreateBuilderOptions)
    (base : Builder) (e : String)
    (h0 : ValidateConfig opts.Config = none)
    (h1 : (validateRunImageConfig c opts).2 = none)
    (hb : createBaseBuilder c opts = .ok base)
    (h : addBuildpacksToBuilder c opts base opts.Config.Buildpacks = .error e) :
    (CreateBuilder c opts).err = some e := by
  unfold CreateBuilder
  rw [h0]
  rcases hv : validateRunImageConfig c opts with ⟨ws, r⟩
  rw [hv] at h1
  simp only at h1
  subst h1
  simp only [hb, h]
  rfl

end pack

namespace pack

/-- C7, counterexample: the config of the tests declares the stack
`some.stack.id` and the build image the fetcher returns carries the label
`other.stack.id`, yet the error is not the one about the build image: the run
image carries `other.stack.id` too, it is validated first, and the call ends
with the error about the run image. -/
theorem CreateBuilder_build_image_mismatch_preempted :
    (∃ img, (fakeClient (.ok { fakeBuildImage with StackID := .ok "other.stack.id" })
          (.ok { fakeRunImage with StackID := .ok "other.stack.id" })
          (.ok fakeRunImageMirror) false).Fetch
        fakeOpts.Config.Stack.BuildImage ⟨!fakeOpts.Publish, fakeOpts.PullPolicy⟩ = .ok img ∧
      img.StackID = .ok "other.stack.id") ∧
    "other.stack.id" ≠ fakeOpts.Config.Stack.ID ∧
    (CreateBuilder
        (fakeClient (.ok { fakeBuildImage with StackID := .ok "other.stack.id" })
          (.ok { fakeRunImage with StackID := .ok "other.stack.id" })
          (.ok fakeRunImageMirror) false) fakeOpts).err =
      some ("stack 'some.stack.id' from builder config is incompatible with stack " ++
        "'other.stack.id' from run image 'some/run-image'") ∧
    (CreateBuilder
        (fakeClient (.ok { fakeBuildImage with StackID := .ok "other.stack.id" })
          (.ok { fakeRunImage with StackID := .ok "other.stack.id" })
          (.ok fakeRunImageMirror) false) fakeOpts).err ≠
      some ("stack 'some.stack.id' from builder config is incompatible with stack " ++
        "'other.stack.id' from build image") :=
  ⟨⟨_, rfl, rfl⟩, by decide, by decide, by decide⟩

/-- C7, amended: when the builder config passes the required-field checks and
the validation of the run images (so that the build image is fetched), the
fetched build image is not a windows image unless the experimental flag is
enabled, and its stack id label differs from `stack.id`, then `CreateBuilder`
fails with "stack '<config id>' from builder config is incompatible with stack
'<image id>' from build image". -/
theorem CreateBuilder_build_image_stack_mismatch (c : Client) (opts : CreateBuilderOptions)
    (img : Image) (id : String)
    (h0 : ValidateConfig opts.Config = none)
    (h1 : (validateRunImageConfig c opts).2 = none)
    (hf : c.Fetch opts.Config.Stack.BuildImage ⟨!opts.Publish, opts.PullPolicy⟩ = .ok img)
    (hl : img.StackID = .ok id)
    (hwin : img.OS = "windows" → c.experimental = true)
    (hne : id ≠ opts.Config.Stack.ID) :
    (CreateBuilder c opts).err =
      some ("stack " ++ Symbol opts.Config.Stack.ID ++
        " from builder config is incompatible with stack " ++ Symbol id ++ " from build image") := by
  apply CreateBuilder_err_of_base c opts _ h0 h1
  have hgate : (img.OS == "windows" && !c.experimental) = false := by
    by_cases hw : img.OS = "windows"
    · simp [hwin hw]
    · simp [hw]
  have hdiff : (id != opts.Config.Stack.ID) = true := by simpa using hne
  unfold createBaseBuilder
  rw [hf]
  simp only [hl, hgate, hdiff, Bool.false_eq_true, if_true, if_false]

/-- Witness of C7: the test "should fail when the stack ID from the builder
config does not match the stack ID from the build image". -/
theorem CreateBuilder_build_image_stack_mismatch_witness :
    (CreateBuilder
        (fakeClient (.ok { fakeBuildImage with StackID := .ok "other.stack.id" })
          (.ok fakeRunImage) (.ok fakeRunImageMirror) false) fakeOpts).err =
      some ("stack 'some.stack.id' from builder config is incompatible with stack " ++
        "'other.stack.id' from build image") :=
  CreateBuilder_build_image_stack_mismatch
    (fakeClient (.ok { fakeBuildImage with StackID := .ok "other.stack.id" })
      (.ok fakeRunImage) (.ok fakeRunImageMirror) false) fakeOpts
    { fakeBuildImage with StackID := .ok "other.stack.id" } "other.stack.id"
    (by decide) (by decide) rfl rfl (by decide) (by decide)

end pack

namespace pack

theorem fetchRunImages_ok (c : Client) (opts : CreateBuilderOptions) (names : List String)
    (h : ∀ m ∈ names, ∀ msg, fetchRunImage c opts m ≠ .failed msg) :
    (fetchRunImages c opts names).2 =
      .ok (names.filterMap fun m => (fetchRunImage c opts m).image) := by
  induction names with
  | nil => rfl
  | cons n rest ih =>
    have ih1 := ih (fun m hm => h m (List.mem_cons_of_mem _ hm))
    have hn := h n (List.mem_cons_self _ _)
    unfold fetchRunImages
    cases hr : fetchRunImage c opts n with
    | failed msg => exact absurd hr (hn msg)
    | notFound => simp only [ih1, List.filterMap_cons, hr, FetchResult.image]
    | ok img => simp only [ih1, List.filterMap_cons, hr, FetchResult.image]

theorem validateRunImageStacks_first_mismatch (stackID id : String) (pre post : List Image)
    (img : Image) (hpre : ∀ i ∈ pre, i.StackID = .ok stackID) (hl : img.StackID = .ok id)
    (hne : id ≠ stackID) :
    validateRunImageStacks stackID (pre ++ img :: post) =
      some ("stack " ++ Symbol stackID ++ " from builder config is incompatible with stack " ++
        Symbol id ++ " from run image " ++ Symbol img.Name) := by
  induction pre with
  | nil =>
    simp only [List.nil_append, validateRunImageStacks, hl]
    rw [if_pos (by simpa using hne)]
  | cons p rest ih =>
    have hp := hpre p (List.mem_cons_self _ _)
    simp only [List.cons_append, validateRunImageStacks, hp]
    rw [if_neg (by simp)]
    exact ih (fun i hi => hpre i (List.mem_cons_of_mem _ hi))

theorem filterMap_image_matching (c : Client) (opts : CreateBuilderOptions) (stackID : String)
    (pre : List String)
    (hpre : ∀ m ∈ pre, fetchRunImage c opts m = .notFound ∨
      ∃ i, fetchRunImage c opts m = .ok i ∧ i.StackID = .ok stackID) :
    ∀ i ∈ pre.filterMap (fun m => (fetchRunImage c opts m).image), i.StackID = .ok stackID := by
  intro i hi
  obtain ⟨m, hm, hmi⟩ := List.mem_filterMap.mp hi
  rcases hpre m hm with h | ⟨j, hj, hjl⟩
  · rw [h] at hmi
    simp [FetchResult.image] at hmi
  · rw [hj] at hmi
    simp only [FetchResult.image, Option.some.injEq] at hmi
    subst hmi
    exact hjl

/-- C8, counterexample: the run image the fetcher returns carries the label
`other.stack.id`, different from the `some.stack.id` of the config, but the
config names no build image: the call ends with "stack.build-image is
required", before any image is fetched. -/
theorem CreateBuilder_run_image_mismatch_preempted :
    (∃ img, (fakeClient (.ok fakeBuildImage)
          (.ok { fakeRunImage with StackID := .ok "other.stack.id" })
          (.ok fakeRunImageMirror) false).Fetch "some/run-image" ⟨true, .PullAlways⟩ = .ok img ∧
      img.StackID = .ok "other.stack.id") ∧
    ({ fakeOpts with Config := { fakeOpts.Config with
        Stack := { fakeOpts.Config.Stack with BuildImage := "" } } } :
      CreateBuilderOptions).Config.Stack.RunImage = "some/run-image" ∧
    "other.stack.id" ≠ fakeOpts.Config.Stack.ID ∧
    (CreateBuilder
        (fakeClient (.ok fakeBuildImage)
          (.ok { fakeRunImage with StackID := .ok "other.stack.id" })
          (.ok fakeRunImageMirror) false)
        { fakeOpts with Config := { fakeOpts.Config with
            Stack := { fakeOpts.Config.Stack with BuildImage := "" } } }).err =
      some "stack.build-image is required" ∧
    (CreateBuilder
        (fakeClient (.ok fakeBuildImage)
          (.ok { fakeRunImage with StackID := .ok "other.stack.id" })
          (.ok fakeRunImageMirror) false)
        { fakeOpts with Config := { fakeOpts.Config with
            Stack := { fakeOpts.Config.Stack with BuildImage := "" } } }).err ≠
      some ("stack 'some.stack.id' from builder config is incompatible with stack " ++
        "'other.stack.id' from run image 'some/run-image'") :=
  ⟨⟨_, rfl, rfl⟩, rfl, by decide, by decide, by decide⟩

/-- C8, amended: let the builder config pass the required-field checks, and
let an image of the list "run image, then mirrors" be fetched with a stack id
label different from `stack.id`, while every image before it in the list is
either not found or fetched with the label `stack.id`, and no image after it
fails to be fetched with an error other than not-found. Then `CreateBuilder`
fails with "stack '<config id>' from builder config is incompatible with stack
'<image id>' from run image '<that image's name>'". -/
theorem CreateBuilder_run_image_stack_mismatch (c : Client) (opts : CreateBuilderOptions)
    (pre post : List String) (name : String) (img : Image) (id : String)
    (h0 : ValidateConfig opts.Config = none)
    (hnames : opts.Config.Stack.RunImage :: opts.Config.Stack.RunImageMirrors =
      pre ++ name :: post)
    (hpre : ∀ m ∈ pre, fetchRunImage c opts m = .notFound ∨
      ∃ i, fetchRunImage c opts m = .ok i ∧ i.StackID = .ok opts.Config.Stack.ID)
    (hf : fetchRunImage c opts name = .ok img)
    (hl : img.StackID = .ok id)
    (hne : id ≠ opts.Config.Stack.ID)
    (hpost : ∀ m ∈ post, ∀ msg, fetchRunImage c opts m ≠ .failed msg) :
    (CreateBuilder c opts).err =
      some ("stack " ++ Symbol opts.Config.Stack.ID ++
        " from builder config is incompatible with stack " ++ Symbol id ++
        " from run image " ++ Symbol img.Name) := by
  apply CreateBuilder_err_of_runImage c opts _ h0
  have hall : ∀ m ∈ pre ++ name :: post, ∀ msg, fetchRunImage c opts m ≠ .failed msg := by
    intro m hm msg
    rcases List.mem_append.mp hm with h | h
    · rcases hpre m h with h' | ⟨i, h', _⟩ <;> simp [h']
    · rcases List.mem_cons.mp h with h | h
      · subst h
        simp [hf]
      · exact hpost m h msg
  have hfetch := fetchRunImages_ok c opts _ hall
  unfold validateRunImageConfig
  rw [hnames]
  rcases hr : fetchRunImages c opts (pre ++ name :: post) with ⟨ws, r⟩
  rw [hr] at hfetch
  simp only at hfetch
  subst hfetch
  simp only [List.filterMap_append, List.filterMap_cons, hf, FetchResult.image]
  exact validateRunImageStacks_first_mismatch _ _ _ _ _
    (filterMap_image_matching c opts _ pre hpre) hl hne

/-- Witness of C8: the test "should fail when the stack ID from the builder
config does not match the stack ID from the run image mirrors". -/
theorem CreateBuilder_run_image_stack_mismatch_witness :
    (CreateBuilder
        (fakeClient (.ok fakeBuildImage) (.ok fakeRunImage)
          (.ok { fakeRunImageMirror with StackID := .ok "other.stack.id" }) false) fakeOpts).err =
      some ("stack 'some.stack.id' from builder config is incompatible with stack " ++
        "'other.stack.id' from run image 'localhost:5000/some/run-image'") :=
  CreateBuilder_run_image_stack_mismatch
    (fakeClient (.ok fakeBuildImage) (.ok fakeRunImage)
      (.ok { fakeRunImageMirror with StackID := .ok "other.stack.id" }) false) fakeOpts
    ["some/run-image"] [] "localhost:5000/some/run-image"
    { fakeRunImageMirror with StackID := .ok "other.stack.id" } "other.stack.id"
    (by decide) rfl
    (fun m hm => Or.inr ⟨fakeRunImage, by rw [List.mem_singleton.mp hm]; rfl, rfl⟩)
    rfl rfl (by decide) (fun m hm => absurd hm (List.not_mem_nil m))

end pack

namespace pack

theorem addBuildpacksToBuilder_skip (c : Client) (opts : CreateBuilderOptions) (os : String)
    (pre rest : List BuildpackConfig)
    (hpre : ∀ e ∈ pre, ∃ main deps,
      c.DownloadBuildpack e.URI (downloadOptions opts os e) = .ok (main, deps) ∧
      validateBuildpack main e.URI e.ID e.Version = none) :
    ∀ bldr : Builder, bldr.OS = os →
      ∃ bldr2 : Builder, bldr2.OS = os ∧
        addBuildpacksToBuilder c opts bldr (pre ++ rest) =
          addBuildpacksToBuilder c opts bldr2 rest := by
  induction pre with
  | nil => exact fun bldr h => ⟨bldr, h, rfl⟩
  | cons e es ih =>
    intro bldr hos
    obtain ⟨main, deps, hd, hv⟩ := hpre e (List.mem_cons_self _ _)
    obtain ⟨bldr2, hos2, h2⟩ := ih (fun x hx => hpre x (List.mem_cons_of_mem _ hx))
      { bldr with Buildpacks := bldr.Buildpacks ++ main :: deps } hos
    refine ⟨bldr2, hos2, ?_⟩
    have hopt : downloadOptions opts bldr.OS e = downloadOptions opts os e := by rw [hos]
    rw [List.cons_append, addBuildpacksToBuilder, hopt, hd]
    simp only [hv]
    exact h2

theorem validateBuildpack_eq_none (bp : Buildpack) (source id version : String)
    (hid : id = "" ∨ bp.Descriptor.Info.ID = id)
    (hv : version = "" ∨ bp.Descriptor.Info.Version = version) :
    validateBuildpack bp source id version = none := by
  unfold validateBuildpack
  have h1 : (id != "" && bp.Descriptor.Info.ID != id) = false := by
    rcases hid with h | h <;> simp [h]
  have h2 : (version != "" && bp.Descriptor.Info.Version != version) = false := by
    rcases hv with h | h <;> simp [h]
  simp only [h1, h2, Bool.false_eq_true, if_false]

/-- C9, counterexample, at two configs whose only buildpack entry is
downloaded as `bp.one` version 1.2.3. An entry that gives only the uri declares
the id "" and the version "", both different from the downloaded ones, and
`CreateBuilder` succeeds (as in the test "package file is valid"). An entry that
declares the id `does.not.match` and the version `0.0.0` fails with the error
about the id, and the differing version is not reported. -/
theorem CreateBuilder_buildpack_mismatch_not_reported :
    (CreateBuilder (fakeClient (.ok fakeBuildImage) (.ok fakeRunImage) (.ok fakeRunImageMirror) false)
        { fakeOpts with Config := { fakeOpts.Config with
            Buildpacks := [{ URI := "https://example.fake/bp-one.tgz" }] } }).err = none ∧
    ("" : String) ≠ exampleBuildpack.Descriptor.Info.ID ∧
    ("" : String) ≠ exampleBuildpack.Descriptor.Info.Version ∧
    (CreateBuilder (fakeClient (.ok fakeBuildImage) (.ok fakeRunImage) (.ok fakeRunImageMirror) false)
        { fakeOpts with Config := { fakeOpts.Config with
            Buildpacks := [{ ID := "does.not.match", Version := "0.0.0",
                             URI := "https://example.fake/bp-one.tgz" }] } }).err =
      some ("buildpack from URI 'https://example.fake/bp-one.tgz' has ID 'bp.one' which does " ++
        "not match ID 'does.not.match' from builder config") ∧
    "0.0.0" ≠ exampleBuildpack.Descriptor.Info.Version ∧
    (CreateBuilder (fakeClient (.ok fakeBuildImage) (.ok fakeRunImage) (.ok fakeRunImageMirror) false)
        { fakeOpts with Config := { fakeOpts.Config with
            Buildpacks := [{ ID := "does.not.match", Version := "0.0.0",
                             URI := "https://example.fake/bp-one.tgz" }] } }).err ≠
      some ("buildpack from URI 'https://example.fake/bp-one.tgz' has version '1.2.3' which " ++
        "does not match version '0.0.0' from builder config") :=
  ⟨by decide, by decide, by decide, by decide, by decide, by decide⟩

/-- C9, amended: let the builder config pass the required-field checks and the
validation of the run images, let the base builder be created (build image
fetched with the stack id of the config, lifecycle resolved), and let every
buildpack entry before the entry `b` be downloaded as a buildpack that matches
what the entry declares. If `b` is downloaded as `bp`, then: when `b` declares a
non-empty id different from the id of `bp`, `CreateBuilder` fails with
"buildpack from URI '<uri>' has ID '<downloaded>' which does not match ID
'<declared>' from builder config"; when the id of `b` is empty or equal to that
of `bp` and `b` declares a non-empty version different from the version of
`bp`, it fails with "buildpack from URI '<uri>' has version '<downloaded>'
which does not match version '<declared>' from builder config". -/
theorem CreateBuilder_buildpack_mismatch (c : Client) (opts : CreateBuilderOptions)
    (base : Builder) (pre post : List BuildpackConfig) (b : BuildpackConfig)
    (bp : Buildpack) (deps : List Buildpack)
    (h0 : ValidateConfig opts.Config = none)
    (h1 : (validateRunImageConfig c opts).2 = none)
    (hb : createBaseBuilder c opts = .ok base)
    (hbps : opts.Config.Buildpacks = pre ++ b :: post)
    (hpre : ∀ e ∈ pre, ∃ main ds,
      c.DownloadBuildpack e.URI (downloadOptions opts base.OS e) = .ok (main, ds) ∧
      (e.ID = "" ∨ main.Descriptor.Info.ID = e.ID) ∧
      (e.Version = "" ∨ main.Descriptor.Info.Version = e.Version))
    (hd : c.DownloadBuildpack b.URI (downloadOptions opts base.OS b) = .ok (bp, deps)) :
    (b.ID ≠ "" → bp.Descriptor.Info.ID ≠ b.ID →
      (CreateBuilder c opts).err =
        some ("buildpack from URI " ++ Symbol b.URI ++ " has ID " ++
          Symbol bp.Descriptor.Info.ID ++ " which does not match ID " ++ Symbol b.ID ++
          " from builder config")) ∧
    ((b.ID = "" ∨ bp.Descriptor.Info.ID = b.ID) → b.Version ≠ "" →
      bp.Descriptor.Info.Version ≠ b.Version →
      (CreateBuilder c opts).err =
        some ("buildpack from URI " ++ Symbol b.URI ++ " has version " ++
          Symbol bp.Descriptor.Info.Version ++ " which does not match version " ++
          Symbol b.Version ++ " from builder config")) := by
  obtain ⟨bldr2, hos2, h2⟩ := addBuildpacksToBuilder_skip c opts base.OS pre (b :: post)
    (fun e he => by
      obtain ⟨main, ds, hdl, hid, hv⟩ := hpre e he
      exact ⟨main, ds, hdl, validateBuildpack_eq_none main e.URI e.ID e.Version hid hv⟩)
    base rfl
  have hstep : ∀ e, validateBuildpack bp b.URI b.ID b.Version = some e →
      (CreateBuilder c opts).err = some e := by
    intro e he
    apply CreateBuilder_err_of_buildpacks c opts base e h0 h1 hb
    rw [hbps, h2, addBuildpacksToBuilder, hos2, hd]
    simp only [he]
  constructor
  · intro hne hdiff
    apply hstep
    unfold validateBuildpack
    rw [if_pos (by simp [hne, hdiff])]
  · intro hid hne hdiff
    apply hstep
    unfold validateBuildpack
    have h1 : (b.ID != "" && bp.Descriptor.Info.ID != b.ID) = false := by
      rcases hid with h | h <;> simp [h]
    rw [if_neg (by simp [h1]), if_pos (by simp [hne, hdiff])]

/-- Witness of C9: the tests "should fail when buildpack ID does not match
downloaded buildpack" and "should fail when buildpack version does not match
downloaded buildpack". -/
theorem CreateBuilder_buildpack_mismatch_witness :
    (CreateBuilder (fakeClient (.ok fakeBuildImage) (.ok fakeRunImage) (.ok fakeRunImageMirror) false)
        { fakeOpts with Config := { fakeOpts.Config with
            Buildpacks := [{ ID := "does.not.match", Version := "1.2.3",
                             URI := "https://example.fake/bp-one.tgz" }] } }).err =
      some ("buildpack from URI 'https://example.fake/bp-one.tgz' has ID 'bp.one' which does " ++
        "not match ID 'does.not.match' from builder config") ∧
    (CreateBuilder (fakeClient (.ok fakeBuildImage) (.ok fakeRunImage) (.ok fakeRunImageMirror) false)
        { fakeOpts with Config := { fakeOpts.Config with
            Buildpacks := [{ ID := "bp.one", Version := "0.0.0",
                             URI := "https://example.fake/bp-one.tgz" }] } }).err =
      some ("buildpack from URI 'https://example.fake/bp-one.tgz' has version '1.2.3' which " ++
        "does not match version '0.0.0' from builder config") :=
  ⟨(CreateBuilder_buildpack_mismatch
      (fakeClient (.ok fakeBuildImage) (.ok fakeRunImage) (.ok fakeRunImageMirror) false)
      { fakeOpts with Config := { fakeOpts.Config with
          Buildpacks := [{ ID := "does.not.match", Version := "1.2.3",
                           URI := "https://example.fake/bp-one.tgz" }] } }
      { Name := "some/builder", Description := "Some description", OS := "linux",
        StackID := "some.stack.id", Mixins := ["mixinX", "build:mixinY"], UID := "1234",
        GID := "4321", Lifecycle := exampleLifecycle }
      [] [] { ID := "does.not.match", Version := "1.2.3", URI := "https://example.fake/bp-one.tgz" }
      exampleBuildpack [] (by decide) (by decide) rfl rfl
      (fun e he => absurd he (List.not_mem_nil e)) rfl).1 (by decide) (by decide),
   (CreateBuilder_buildpack_mismatch
      (fakeClient (.ok fakeBuildImage) (.ok fakeRunImage) (.ok fakeRunImageMirror) false)
      { fakeOpts with Config := { fakeOpts.Config with
          Buildpacks := [{ ID := "bp.one", Version := "0.0.0",
                           URI := "https://example.fake/bp-one.tgz" }] } }
      { Name := "some/builder", Description := "Some description", OS := "linux",
        StackID := "some.stack.id", Mixins := ["mixinX", "build:mixinY"], UID := "1234",
        GID := "4321", Lifecycle := exampleLifecycle }
      [] [] { ID := "bp.one", Version := "0.0.0", URI := "https://example.fake/bp-one.tgz" }
      exampleBuildpack [] (by decide) (by decide) rfl rfl
      (fun e he => absurd he (List.not_mem_nil e)) rfl).2 (Or.inr rfl) (by decide) (by decide)⟩

end pack

namespace pack

/-- C10, counterexample: the lifecycle section declares both the version
`something` and the uri `file://some-lifecycle`, but the config has no stack
id: the call ends with "stack.id is required", not with the lifecycle error. -/
theorem CreateBuilder_lifecycle_both_preempted :
    ({ URI := "file://some-lifecycle", Version := "something" } : LifecycleConfig).Version ≠ "" ∧
    ({ URI := "file://some-lifecycle", Version := "something" } : LifecycleConfig).URI ≠ "" ∧
    (CreateBuilder (fakeClient (.ok fakeBuildImage) (.ok fakeRunImage) (.ok fakeRunImageMirror) false)
        { fakeOpts with Config := { fakeOpts.Config with
            Stack := { fakeOpts.Config.Stack with ID := "" },
            Lifecycle := { URI := "file://some-lifecycle", Version := "something" } } }).err =
      some "stack.id is required" ∧
    (CreateBuilder (fakeClient (.ok fakeBuildImage) (.ok fakeRunImage) (.ok fakeRunImageMirror) false)
        { fakeOpts with Config := { fakeOpts.Config with
            Stack := { fakeOpts.Config.Stack with ID := "" },
            Lifecycle := { URI := "file://some-lifecycle", Version := "something" } } }).err ≠
      some "'lifecycle' can only declare 'version' or 'uri', not both" :=
  ⟨by decide, by decide, by decide, by decide⟩

/-- C10, amended: when the builder config passes the required-field checks and
the validation of the run images, the build image is fetched and carries the
stack id of the config, and it is not a windows image unless the experimental
flag is enabled, a lifecycle section that declares both a non-empty version and
a non-empty uri makes `CreateBuilder` fail with "'lifecycle' can only declare
'version' or 'uri', not both". -/
theorem CreateBuilder_lifecycle_version_and_uri (c : Client) (opts : CreateBuilderOptions)
    (img : Image)
    (h0 : ValidateConfig opts.Config = none)
    (h1 : (validateRunImageConfig c opts).2 = none)
    (hf : c.Fetch opts.Config.Stack.BuildImage ⟨!opts.Publish, opts.PullPolicy⟩ = .ok img)
    (hl : img.StackID = .ok opts.Config.Stack.ID)
    (hwin : img.OS = "windows" → c.experimental = true)
    (hv : opts.Config.Lifecycle.Version ≠ "")
    (hu : opts.Config.Lifecycle.URI ≠ "") :
    (CreateBuilder c opts).err =
      some "'lifecycle' can only declare 'version' or 'uri', not both" := by
  apply CreateBuilder_err_of_base c opts _ h0 h1
  have hgate : (img.OS == "windows" && !c.experimental) = false := by
    by_cases hw : img.OS = "windows"
    · simp [hwin hw]
    · simp [hw]
  have hboth : (opts.Config.Lifecycle.Version != "" && opts.Config.Lifecycle.URI != "") = true := by
    simp [hv, hu]
  unfold createBaseBuilder
  rw [hf]
  simp only [hl]
  rw [if_neg (by simp), if_neg (by simp [hgate])]
  unfold fetchLifecycle
  rw [if_pos hboth]

/-- Witness of C10: the test "should fail when both lifecycle version and uri
are present". -/
theorem CreateBuilder_lifecycle_version_and_uri_witness :
    (CreateBuilder (fakeClient (.ok fakeBuildImage) (.ok fakeRunImage) (.ok fakeRunImageMirror) false)
        { fakeOpts with Config := { fakeOpts.Config with
            Lifecycle := { URI := "file://some-lifecycle", Version := "something" } } }).err =
      some "'lifecycle' can only declare 'version' or 'uri', not both" :=
  CreateBuilder_lifecycle_version_and_uri
    (fakeClient (.ok fakeBuildImage) (.ok fakeRunImage) (.ok fakeRunImageMirror) false)
    { fakeOpts with Config := { fakeOpts.Config with
        Lifecycle := { URI := "file://some-lifecycle", Version := "something" } } }
    fakeBuildImage (by decide) (by decide) rfl rfl (by decide) (by decide) (by decide)

end pack

namespace pack

theorem CreateBuilder_of_buildpacks_ok (c : Client) (opts : CreateBuilderOptions)
    (base bldr : Builder)
    (h0 : ValidateConfig opts.Config = none)
    (h1 : (validateRunImageConfig c opts).2 = none)
    (hb : createBaseBuilder c opts = .ok base)
    (hbp : addBuildpacksToBuilder c opts base opts.Config.Buildpacks = .ok bldr) :
    (CreateBuilder c opts).result =
        (Builder.Save { bldr with Order := opts.Config.Order, Stack := opts.Config.Stack }
          opts.Publish).2 ∧
      (CreateBuilder c opts).warnings =
        (validateRunImageConfig c opts).1 ++
          (Builder.Save { bldr with Order := opts.Config.Order, Stack := opts.Config.Stack }
            opts.Publish).1 := by
  unfold CreateBuilder
  rw [h0]
  rcases hv : validateRunImageConfig c opts with ⟨ws, r⟩
  rw [hv] at h1
  simp only at h1
  subst h1
  simp only [hb, hbp, and_self]

theorem fetchLifecycle_eq_download (c : Client) (config : LifecycleConfig)
    (relativeBaseDir os uri : String)
    (hboth : ¬ (config.Version ≠ "" ∧ config.URI ≠ ""))
    (huri : (if config.Version != "" then
               match c.ParseSemver config.Version with
               | none => .error "'lifecycle.version' must be a valid semver"
               | some v => .ok (uriFromLifecycleVersion v os)
             else if config.URI != "" then c.FilePathToURI config.URI relativeBaseDir
             else .ok (uriFromLifecycleVersion c.DefaultLifecycleVersion os) :
             Except String String) = .ok uri) :
    fetchLifecycle c config relativeBaseDir os = lifecycleFromDownload (c.Download uri) := by
  unfold fetchLifecycle
  have h : (config.Version != "" && config.URI != "") = false := by
    by_cases hv : config.Version = ""
    · simp [hv]
    · by_cases hu : config.URI = ""
      · simp [hu]
      · exact absurd ⟨hv, hu⟩ hboth
  rw [if_neg (by simp [h]), huri]
  simp only
  unfold lifecycleFromDownload
  cases hd : c.Download uri with
  | error e => rfl
  | ok r => cases r <;> rfl

theorem createBaseBuilder_of_image (c : Client) (opts : CreateBuilderOptions) (img : Image)
    (hf : c.Fetch opts.Config.Stack.BuildImage ⟨!opts.Publish, opts.PullPolicy⟩ = .ok img)
    (hl : img.StackID = .ok opts.Config.Stack.ID)
    (hgate : img.OS = "windows" → c.experimental = true) :
    createBaseBuilder c opts =
      match fetchLifecycle c opts.Config.Lifecycle opts.RelativeBaseDir img.OS with
      | .error e => .error e
      | .ok lifecycle => .ok (baseBuilderOf opts img opts.Config.Stack.ID lifecycle) := by
  have hg : (img.OS == "windows" && !c.experimental) = false := by
    by_cases hw : img.OS = "windows"
    · simp [hgate hw]
    · simp [hw]
  unfold createBaseBuilder
  rw [hf]
  simp only [hl]
  rw [if_neg (by simp), if_neg (by simp [hg])]
  rfl

theorem createBaseBuilder_ok_inv (c : Client) (opts : CreateBuilderOptions) (base : Builder)
    (h : createBaseBuilder c opts = .ok base) :
    ∃ img lifecycle,
      c.Fetch opts.Config.Stack.BuildImage ⟨!opts.Publish, opts.PullPolicy⟩ = .ok img ∧
      img.StackID = .ok opts.Config.Stack.ID ∧
      (img.OS = "windows" → c.experimental = true) ∧
      fetchLifecycle c opts.Config.Lifecycle opts.RelativeBaseDir img.OS = .ok lifecycle ∧
      base = baseBuilderOf opts img opts.Config.Stack.ID lifecycle := by
  unfold createBaseBuilder at h
  cases hf : c.Fetch opts.Config.Stack.BuildImage ⟨!opts.Publish, opts.PullPolicy⟩ with
  | notFound => rw [hf] at h; simp at h
  | failed msg => rw [hf] at h; simp at h
  | ok img =>
    rw [hf] at h
    simp only at h
    cases hl : img.StackID with
    | error e => rw [hl] at h; simp at h
    | ok id =>
      rw [hl] at h
      simp only at h
      by_cases hne : (id != opts.Config.Stack.ID) = true
      · rw [if_pos hne] at h
        simp at h
      · rw [if_neg hne] at h
        have hid : id = opts.Config.Stack.ID := by simpa using hne
        by_cases hg : (img.OS == "windows" && !c.experimental) = true
        · rw [if_pos hg] at h
          simp at h
        · rw [if_neg hg] at h
          cases hlc : fetchLifecycle c opts.Config.Lifecycle opts.RelativeBaseDir img.OS with
          | error e => rw [hlc] at h; simp at h
          | ok lifecycle =>
            rw [hlc] at h
            simp only [Except.ok.injEq] at h
            refine ⟨img, lifecycle, rfl, by rw [hl, hid], ?_, hlc, ?_⟩
            · intro hw
              by_contra hexp
              apply hg
              simp [hw, hexp]
            · rw [← h, hid]
              rfl

theorem addBuildpacksToBuilder_ok_fields (c : Client) (opts : CreateBuilderOptions)
    (l : List BuildpackConfig) :
    ∀ b b2 : Builder, addBuildpacksToBuilder c opts b l = .ok b2 →
      ∃ bps, b2 = { b with Buildpacks := b.Buildpacks ++ bps } := by
  induction l with
  | nil =>
    intro b b2 h
    simp only [addBuildpacksToBuilder, Except.ok.injEq] at h
    exact ⟨[], by rw [← h, List.append_nil]⟩
  | cons e rest ih =>
    intro b b2 h
    unfold addBuildpacksToBuilder at h
    cases hd : c.DownloadBuildpack e.URI (downloadOptions opts b.OS e) with
    | error err => rw [hd] at h; simp at h
    | ok r =>
      obtain ⟨main, deps⟩ := r
      rw [hd] at h
      simp only at h
      cases hv : validateBuildpack main e.URI e.ID e.Version with
      | some err => rw [hv] at h; simp at h
      | none =>
        rw [hv] at h
        simp only at h
        obtain ⟨bps, hb⟩ := ih _ _ h
        exact ⟨main :: deps ++ bps, by rw [hb]; simp⟩

end pack

namespace pack

/-- C11, counterexample, at two configs with an empty lifecycle uri. With the
version `not-semver` and no stack id the call ends with "stack.id is required".
With the empty version, which is no semantic version either, the default
lifecycle is downloaded and the call succeeds (as in the test "no lifecycle
version or URI is provided"). -/
theorem CreateBuilder_invalid_version_not_reported :
    threeNumbers "not-semver" = none ∧
    (CreateBuilder (fakeClient (.ok fakeBuildImage) (.ok fakeRunImage) (.ok fakeRunImageMirror) false)
        { fakeOpts with Config := { fakeOpts.Config with
            Stack := { fakeOpts.Config.Stack with ID := "" },
            Lifecycle := { URI := "", Version := "not-semver" } } }).err =
      some "stack.id is required" ∧
    threeNumbers "" = none ∧
    (CreateBuilder
        (fakeClientWithLifecycleAt
          "https://github.com/buildpacks/lifecycle/releases/download/v0.11.3/lifecycle-v0.11.3+linux.x86-64.tgz"
          (.ok fakeBuildImage) (.ok fakeRunImage) (.ok fakeRunImageMirror) false)
        { fakeOpts with Config := { fakeOpts.Config with
            Lifecycle := { URI := "", Version := "" } } }).err = none :=
  ⟨by decide, by decide, by decide, by decide⟩

/-- C11, amended: when the builder config passes the required-field checks and
the validation of the run images, the build image is fetched, carries the stack
id of the config and is not a windows image unless the experimental flag is
enabled, a lifecycle section with an empty uri and a non-empty version that
the semver parser rejects makes `CreateBuilder` fail with "'lifecycle.version'
must be a valid semver". -/
theorem CreateBuilder_lifecycle_invalid_version (c : Client) (opts : CreateBuilderOptions)
    (img : Image)
    (h0 : ValidateConfig opts.Config = none)
    (h1 : (validateRunImageConfig c opts).2 = none)
    (hf : c.Fetch opts.Config.Stack.BuildImage ⟨!opts.Publish, opts.PullPolicy⟩ = .ok img)
    (hl : img.StackID = .ok opts.Config.Stack.ID)
    (hwin : img.OS = "windows" → c.experimental = true)
    (hu : opts.Config.Lifecycle.URI = "")
    (hv : opts.Config.Lifecycle.Version ≠ "")
    (hp : c.ParseSemver opts.Config.Lifecycle.Version = none) :
    (CreateBuilder c opts).err = some "'lifecycle.version' must be a valid semver" := by
  apply CreateBuilder_err_of_base c opts _ h0 h1
  rw [createBaseBuilder_of_image c opts img hf hl hwin]
  have hlc : fetchLifecycle c opts.Config.Lifecycle opts.RelativeBaseDir img.OS =
      .error "'lifecycle.version' must be a valid semver" := by
    unfold fetchLifecycle
    rw [if_neg (by simp [hu]), if_pos (by simpa using hv), hp]
  rw [hlc]

/-- Witness of C11: the test "should fail when lifecycle version is not a
semver". -/
theorem CreateBuilder_lifecycle_invalid_version_witness :
    (CreateBuilder (fakeClient (.ok fakeBuildImage) (.ok fakeRunImage) (.ok fakeRunImageMirror) false)
        { fakeOpts with Config := { fakeOpts.Config with
            Lifecycle := { URI := "", Version := "not-semver" } } }).err =
      some "'lifecycle.version' must be a valid semver" :=
  CreateBuilder_lifecycle_invalid_version
    (fakeClient (.ok fakeBuildImage) (.ok fakeRunImage) (.ok fakeRunImageMirror) false)
    { fakeOpts with Config := { fakeOpts.Config with
        Lifecycle := { URI := "", Version := "not-semver" } } }
    fakeBuildImage (by decide) (by decide) rfl rfl (by decide) rfl (by decide) (by decide)

/-- C12: when `stack.id`, `stack.build-image` or `stack.run-image` is empty,
`CreateBuilder` fails with "stack.id is required", "stack.build-image is
required" or "stack.run-image is required", naming a field that is empty, and
it does so before any image is fetched: no warning is written and the outcome
is the same whatever the fetcher and the downloaders of the client return. -/
theorem CreateBuilder_required_fields (c : Client) (opts : CreateBuilderOptions)
    (h : opts.Config.Stack.ID = "" ∨ opts.Config.Stack.BuildImage = "" ∨
      opts.Config.Stack.RunImage = "") :
    (((CreateBuilder c opts).err = some "stack.id is required" ∧ opts.Config.Stack.ID = "") ∨
      ((CreateBuilder c opts).err = some "stack.build-image is required" ∧
        opts.Config.Stack.BuildImage = "") ∨
      ((CreateBuilder c opts).err = some "stack.run-image is required" ∧
        opts.Config.Stack.RunImage = "")) ∧
    (CreateBuilder c opts).warnings = [] ∧
    ∀ c2 : Client,
      (CreateBuilder c2 opts).warnings = (CreateBuilder c opts).warnings ∧
      (CreateBuilder c2 opts).result = (CreateBuilder c opts).result := by
  have key : ∀ e, ValidateConfig opts.Config = some e →
      ∀ c2 : Client, CreateBuilder c2 opts = ⟨[], .error e⟩ := by
    intro e he c2
    unfold CreateBuilder
    rw [he]
  by_cases hid : opts.Config.Stack.ID = ""
  · have hv : ValidateConfig opts.Config = some "stack.id is required" := by
      simp [ValidateConfig, hid]
    refine ⟨Or.inl ⟨CreateBuilder_err_of_config c opts _ hv, hid⟩, ?_, ?_⟩
    · rw [key _ hv c]
    · intro c2
      rw [key _ hv c, key _ hv c2]
      exact ⟨rfl, rfl⟩
  · by_cases hbi : opts.Config.Stack.BuildImage = ""
    · have hv : ValidateConfig opts.Config = some "stack.build-image is required" := by
        simp [ValidateConfig, hid, hbi]
      refine ⟨Or.inr (Or.inl ⟨CreateBuilder_err_of_config c opts _ hv, hbi⟩), ?_, ?_⟩
      · rw [key _ hv c]
      · intro c2
        rw [key _ hv c, key _ hv c2]
        exact ⟨rfl, rfl⟩
    · have hri : opts.Config.Stack.RunImage = "" := by
        rcases h with h | h | h
        · exact absurd h hid
        · exact absurd h hbi
        · exact h
      have hv : ValidateConfig opts.Config = some "stack.run-image is required" := by
        simp [ValidateConfig, hid, hbi, hri]
      refine ⟨Or.inr (Or.inr ⟨CreateBuilder_err_of_config c opts _ hv, hri⟩), ?_, ?_⟩
      · rw [key _ hv c]
      · intro c2
        rw [key _ hv c, key _ hv c2]
        exact ⟨rfl, rfl⟩

end pack

namespace pack

/-- Witness of C12: the tests "should fail when the stack ID is empty", "should
fail when the build image is empty" and "should fail when the run image is
empty". -/
theorem CreateBuilder_required_fields_witness :
    (CreateBuilder (fakeClient (.ok fakeBuildImage) (.ok fakeRunImage) (.ok fakeRunImageMirror) false)
        { fakeOpts with Config := { fakeOpts.Config with
            Stack := { fakeOpts.Config.Stack with ID := "" } } }).err =
      some "stack.id is required" ∧
    (CreateBuilder (fakeClient (.ok fakeBuildImage) (.ok fakeRunImage) (.ok fakeRunImageMirror) false)
        { fakeOpts with Config := { fakeOpts.Config with
            Stack := { fakeOpts.Config.Stack with BuildImage := "" } } }).err =
      some "stack.build-image is required" ∧
    (CreateBuilder (fakeClient (.ok fakeBuildImage) (.ok fakeRunImage) (.ok fakeRunImageMirror) false)
        { fakeOpts with Config := { fakeOpts.Config with
            Stack := { fakeOpts.Config.Stack with RunImage := "" } } }).err =
      some "stack.run-image is required" :=
  ⟨match (CreateBuilder_required_fields
        (fakeClient (.ok fakeBuildImage) (.ok fakeRunImage) (.ok fakeRunImageMirror) false)
        { fakeOpts with Config := { fakeOpts.Config with
            Stack := { fakeOpts.Config.Stack with ID := "" } } } (Or.inl rfl)).1 with
    | Or.inl h => h.1
    | Or.inr (Or.inl h) => absurd h.2 (by decide)
    | Or.inr (Or.inr h) => absurd h.2 (by decide),
   match (CreateBuilder_required_fields
        (fakeClient (.ok fakeBuildImage) (.ok fakeRunImage) (.ok fakeRunImageMirror) false)
        { fakeOpts with Config := { fakeOpts.Config with
            Stack := { fakeOpts.Config.Stack with BuildImage := "" } } } (Or.inr (Or.inl rfl))).1 with
    | Or.inl h => absurd h.2 (by decide)
    | Or.inr (Or.inl h) => h.1
    | Or.inr (Or.inr h) => absurd h.2 (by decide),
   match (CreateBuilder_required_fields
        (fakeClient (.ok fakeBuildImage) (.ok fakeRunImage) (.ok fakeRunImageMirror) false)
        { fakeOpts with Config := { fakeOpts.Config with
            Stack := { fakeOpts.Config.Stack with RunImage := "" } } } (Or.inr (Or.inr rfl))).1 with
    | Or.inl h => absurd h.2 (by decide)
    | Or.inr (Or.inl h) => absurd h.2 (by decide)
    | Or.inr (Or.inr h) => h.1⟩

theorem mem_insertSorted (a m : String) (l : List String) :
    m ∈ insertSorted a l ↔ m = a ∨ m ∈ l := by
  induction l with
  | nil => simp [insertSorted]
  | cons b rest ih =>
    unfold insertSorted
    split
    · simp
    · simp only [List.mem_cons, ih]
      tauto

theorem mem_sortStrings (m : String) (l : List String) : m ∈ sortStrings l ↔ m ∈ l := by
  unfold sortStrings
  induction l with
  | nil => simp
  | cons a rest ih => simp only [List.foldr_cons, mem_insertSorted, ih, List.mem_cons]

theorem mem_missingMixins (m : String) (required available : List String) :
    m ∈ missingMixins required available ↔
      m ∈ required ∧ "run:".data.isPrefixOf m.data = false ∧ m ∉ available := by
  unfold missingMixins
  rw [mem_sortStrings, List.mem_filter]
  simp

theorem validateBuilderBuildpacks_first_error (bldr : Builder) (pre post : List Buildpack)
    (bp : Buildpack) (e : String)
    (hpre : ∀ b ∈ pre, ∃ ws, validateBuilderBuildpack bldr b = .ok ws)
    (hbp : validateBuilderBuildpack bldr bp = .error e) :
    (validateBuilderBuildpacks bldr (pre ++ bp :: post)).2 = some e := by
  induction pre with
  | nil => simp [validateBuilderBuildpacks, hbp]
  | cons a rest ih =>
    obtain ⟨ws, hws⟩ := hpre a (List.mem_cons_self _ _)
    simp only [List.cons_append, validateBuilderBuildpacks, hws]
    exact ih (fun b hb => hpre b (List.mem_cons_of_mem _ hb))

theorem Save_err_of_validate (bldr : Builder) (publish : Bool) (e : String)
    (h : (validateBuilderBuildpacks bldr bldr.Buildpacks).2 = some e) :
    (Builder.Save bldr publish).2 = .error e := by
  unfold Builder.Save
  rcases hv : validateBuilderBuildpacks bldr bldr.Buildpacks with ⟨ws, r⟩
  rw [hv] at h
  simp only at h
  subst h
  rfl

end pack

namespace pack

theorem validateBuilderBuildpacks_update (bldr : Builder) (order : List OrderEntry)
    (stack : StackConfig) (l : List Buildpack) :
    validateBuilderBuildpacks { bldr with Order := order, Stack := stack } l =
      validateBuilderBuildpacks bldr l := by
  induction l with
  | nil => rfl
  | cons a rest ih =>
    have h : validateBuilderBuildpack { bldr with Order := order, Stack := stack } a =
        validateBuilderBuildpack bldr a := rfl
    simp only [validateBuilderBuildpacks, h, ih]

/-- C13, counterexample, at two configs whose buildpack `bp.one` names the
stack of the builder. When it requires `mixinX` and `build:mixinY`, the build
image carries no mixin and the config names no run image, the call ends with
"stack.run-image is required". When it requires only the run-only mixin
`run:mixinZ`, which the build image does not carry, the call succeeds. -/
theorem CreateBuilder_missing_mixin_not_reported :
    missingMixins ["mixinX", "build:mixinY"] [] ≠ [] ∧
    (CreateBuilder
        (fakeClient (.ok { fakeBuildImage with Mixins := [] }) (.ok fakeRunImage)
          (.ok fakeRunImageMirror) false)
        { fakeOpts with Config := { fakeOpts.Config with
            Stack := { fakeOpts.Config.Stack with RunImage := "" } } }).err =
      some "stack.run-image is required" ∧
    "run:mixinZ" ∉ ([] : List String) ∧
    (CreateBuilder
        (fakeClientWithBuildpacks
          [("https://example.fake/bp-one.tgz",
            { exampleBuildpack with Descriptor := { exampleBuildpack.Descriptor with
                Stacks := [{ ID := "some.stack.id", Mixins := ["run:mixinZ"] }] } })]
          (.ok { fakeBuildImage with Mixins := [] }) (.ok fakeRunImage)
          (.ok fakeRunImageMirror) false)
        fakeOpts).err = none :=
  ⟨by decide, by decide, by decide, by decide⟩

/-- C13, amended: let the builder config pass the required-field checks and the
validation of the run images, let the base builder be created and every
buildpack entry be downloaded and match what it declares, and let every
buildpack of the builder before the buildpack `bp` pass the validation of its
API, stack and mixins. If `bp` uses an API the lifecycle supports or
deprecates, is no meta-buildpack, and its entry `s` for the stack of the
builder requires a mixin, other than a run-only `run:` mixin, that the build
image does not carry, then `CreateBuilder` fails with "validating buildpacks:
buildpack '<id>@<version>' requires missing mixin(s): " followed by the missing
mixins, separated by ", ": exactly the mixins of `s` that are not run-only and
are not among the mixins of the build image. -/
theorem CreateBuilder_missing_mixins (c : Client) (opts : CreateBuilderOptions)
    (base bldr : Builder) (pre post : List Buildpack) (bp : Buildpack) (s : Stack)
    (h0 : ValidateConfig opts.Config = none)
    (h1 : (validateRunImageConfig c opts).2 = none)
    (hb : createBaseBuilder c opts = .ok base)
    (hbp : addBuildpacksToBuilder c opts base opts.Config.Buildpacks = .ok bldr)
    (hlist : bldr.Buildpacks = pre ++ bp :: post)
    (hpre : ∀ b ∈ pre, ∃ ws, validateBuilderBuildpack bldr b = .ok ws)
    (hapi : bp.Descriptor.API ∈ bldr.Lifecycle.BuildpackDeprecated ∨
      bp.Descriptor.API ∈ bldr.Lifecycle.BuildpackSupported)
    (hmeta : bp.Descriptor.Order = [])
    (hstack : bp.Descriptor.Stacks.find? (fun s => s.ID == bldr.StackID) = some s)
    (hmiss : missingMixins s.Mixins bldr.Mixins ≠ []) :
    (CreateBuilder c opts).err =
      some ("validating buildpacks: buildpack " ++ Symbol (fullName bp.Descriptor.Info) ++
        " requires missing mixin(s): " ++
        ", ".intercalate (missingMixins s.Mixins bldr.Mixins)) ∧
    (∀ m, m ∈ missingMixins s.Mixins bldr.Mixins ↔
      m ∈ s.Mixins ∧ "run:".data.isPrefixOf m.data = false ∧ m ∉ bldr.Mixins) ∧
    bldr.StackID = opts.Config.Stack.ID ∧
    ∃ img, c.Fetch opts.Config.Stack.BuildImage ⟨!opts.Publish, opts.PullPolicy⟩ = .ok img ∧
      bldr.Mixins = img.Mixins := by
  obtain ⟨img, lifecycle, hf, _, _, _, hbase⟩ := createBaseBuilder_ok_inv c opts base hb
  obtain ⟨bps, hbldr⟩ := addBuildpacksToBuilder_ok_fields c opts _ _ _ hbp
  have hone : validateBuilderBuildpack bldr bp =
      .error ("validating buildpacks: buildpack " ++ Symbol (fullName bp.Descriptor.Info) ++
        " requires missing mixin(s): " ++
        ", ".intercalate (missingMixins s.Mixins bldr.Mixins)) := by
    have ha : (!(bldr.Lifecycle.BuildpackDeprecated.contains bp.Descriptor.API) &&
        !(bldr.Lifecycle.BuildpackSupported.contains bp.Descriptor.API)) = false := by
      rcases hapi with h | h <;> simp [h]
    have hm : (missingMixins s.Mixins bldr.Mixins).isEmpty = false := by
      cases hmm : missingMixins s.Mixins bldr.Mixins with
      | nil => exact absurd hmm hmiss
      | cons a rest => rfl
    unfold validateBuilderBuildpack
    simp only [ha, Bool.false_eq_true, if_false, hmeta, List.isEmpty_nil, Bool.not_true, hstack, hm]
  refine ⟨?_, fun m => mem_missingMixins m _ _, ?_, img, hf, ?_⟩
  · have hres := (CreateBuilder_of_buildpacks_ok c opts base bldr h0 h1 hb hbp).1
    have hsave := Save_err_of_validate
      { bldr with Order := opts.Config.Order, Stack := opts.Config.Stack } opts.Publish _
      (by
        rw [validateBuilderBuildpacks_update]
        show (validateBuilderBuildpacks bldr bldr.Buildpacks).2 = _
        rw [hlist]
        exact validateBuilderBuildpacks_first_error bldr pre post bp _ hpre hone)
    unfold Outcome.err
    rw [hres, hsave]
  · rw [hbldr, hbase]
    rfl
  · rw [hbldr, hbase]
    rfl

/-- Witness of C13: the test "buildpack mixins are not satisfied". -/
theorem CreateBuilder_missing_mixins_witness :
    (CreateBuilder
        (fakeClient (.ok { fakeBuildImage with Mixins := [] }) (.ok fakeRunImage)
          (.ok fakeRunImageMirror) false) fakeOpts).err =
      some ("validating buildpacks: buildpack 'bp.one@1.2.3' requires missing mixin(s): " ++
        "build:mixinY, mixinX") :=
  (CreateBuilder_missing_mixins
    (fakeClient (.ok { fakeBuildImage with Mixins := [] }) (.ok fakeRunImage)
      (.ok fakeRunImageMirror) false) fakeOpts
    (baseBuilderOf fakeOpts { fakeBuildImage with Mixins := [] } "some.stack.id" exampleLifecycle)
    { baseBuilderOf fakeOpts { fakeBuildImage with Mixins := [] } "some.stack.id"
        exampleLifecycle with Buildpacks := [exampleBuildpack] }
    [] [] exampleBuildpack { ID := "some.stack.id", Mixins := ["mixinX", "build:mixinY"] }
    (by decide) (by decide) rfl rfl rfl (fun b hb => absurd hb (List.not_mem_nil b))
    (by decide) rfl rfl (by decide)).1

end pack

namespace pack

theorem fetchRunImages_flag (c : Client) (b : Bool) (opts : CreateBuilderOptions)
    (names : List String) :
    fetchRunImages { c with experimental := b } opts names = fetchRunImages c opts names := by
  induction names with
  | nil => rfl
  | cons n rest ih =>
    have h : fetchRunImage { c with experimental := b } opts n = fetchRunImage c opts n := rfl
    simp only [fetchRunImages, h, ih]

theorem validateRunImageConfig_flag (c : Client) (b : Bool) (opts : CreateBuilderOptions) :
    validateRunImageConfig { c with experimental := b } opts = validateRunImageConfig c opts := by
  unfold validateRunImageConfig
  rw [fetchRunImages_flag]

theorem addBuildpacksToBuilder_flag (c : Client) (b : Bool) (opts : CreateBuilderOptions)
    (l : List BuildpackConfig) :
    ∀ bldr, addBuildpacksToBuilder { c with experimental := b } opts bldr l =
      addBuildpacksToBuilder c opts bldr l := by
  induction l with
  | nil => intro bldr; rfl
  | cons e rest ih =>
    intro bldr
    simp only [addBuildpacksToBuilder, ih]

/-- C14: let a builder config be valid apart from the OS of its build image:
it passes the required-field checks and the validation of the run images, its
build image is fetched and carries the stack id of the config, the lifecycle is
resolved, every buildpack is downloaded and matches its entry, and the builder
passes the final validation. If the build image has the OS "windows", then
`CreateBuilder` fails with "Windows containers support is currently
experimental." (after the context "failed to create builder: ", as the test
asserts it) for the client with the experimental flag disabled, and succeeds
for the same client with the flag enabled. -/
theorem CreateBuilder_windows (c : Client) (opts : CreateBuilderOptions) (img : Image)
    (lifecycle : Lifecycle) (bldr final : Builder)
    (h0 : ValidateConfig opts.Config = none)
    (h1 : (validateRunImageConfig c opts).2 = none)
    (hf : c.Fetch opts.Config.Stack.BuildImage ⟨!opts.Publish, opts.PullPolicy⟩ = .ok img)
    (hl : img.StackID = .ok opts.Config.Stack.ID)
    (hos : img.OS = "windows")
    (hlc : fetchLifecycle c opts.Config.Lifecycle opts.RelativeBaseDir img.OS = .ok lifecycle)
    (hbp : addBuildpacksToBuilder c opts (baseBuilderOf opts img opts.Config.Stack.ID lifecycle)
      opts.Config.Buildpacks = .ok bldr)
    (hsave : (Builder.Save { bldr with Order := opts.Config.Order, Stack := opts.Config.Stack }
      opts.Publish).2 = .ok final) :
    (CreateBuilder { c with experimental := false } opts).err =
      some ("failed to create builder: " ++
        "Windows containers support is currently experimental.") ∧
    (CreateBuilder { c with experimental := true } opts).result = .ok final ∧
    (CreateBuilder { c with experimental := true } opts).err = none := by
  have h1f : ∀ b, (validateRunImageConfig { c with experimental := b } opts).2 = none := by
    intro b
    rw [validateRunImageConfig_flag]
    exact h1
  have hon : (CreateBuilder { c with experimental := true } opts).result = .ok final := by
    have hbase : createBaseBuilder { c with experimental := true } opts =
        .ok (baseBuilderOf opts img opts.Config.Stack.ID lifecycle) := by
      rw [createBaseBuilder_of_image { c with experimental := true } opts img hf hl
        (fun _ => rfl)]
      have hlc2 : fetchLifecycle { c with experimental := true } opts.Config.Lifecycle
          opts.RelativeBaseDir img.OS = .ok lifecycle := hlc
      rw [hlc2]
    rw [(CreateBuilder_of_buildpacks_ok { c with experimental := true } opts _ bldr h0 (h1f true)
      hbase (by rw [addBuildpacksToBuilder_flag]; exact hbp)).1]
    exact hsave
  refine ⟨?_, hon, ?_⟩
  · apply CreateBuilder_err_of_base { c with experimental := false } opts _ h0 (h1f false)
    unfold createBaseBuilder
    have hf2 : ({ c with experimental := false } : Client).Fetch opts.Config.Stack.BuildImage
        ⟨!opts.Publish, opts.PullPolicy⟩ = .ok img := hf
    rw [hf2]
    simp only [hl]
    rw [if_neg (by simp), if_pos (by simp [hos])]
    rfl
  · unfold Outcome.err
    rw [hon]

/-- Witness of C14: the tests "windows containers / experimental enabled /
succeeds" and "windows containers / experimental disabled / fails". -/
theorem CreateBuilder_windows_witness :
    (CreateBuilder
        (fakeClient (.ok { fakeBuildImage with OS := "windows" }) (.ok fakeRunImage)
          (.ok fakeRunImageMirror) false) fakeOpts).err =
      some ("failed to create builder: " ++
        "Windows containers support is currently experimental.") ∧
    (CreateBuilder
        (fakeClient (.ok { fakeBuildImage with OS := "windows" }) (.ok fakeRunImage)
          (.ok fakeRunImageMirror) true) fakeOpts).err = none :=
  have h := CreateBuilder_windows
    (fakeClient (.ok { fakeBuildImage with OS := "windows" }) (.ok fakeRunImage)
      (.ok fakeRunImageMirror) false) fakeOpts
    { fakeBuildImage with OS := "windows" } exampleLifecycle
    { baseBuilderOf fakeOpts { fakeBuildImage with OS := "windows" } "some.stack.id"
        exampleLifecycle with Buildpacks := [exampleBuildpack] }
    { baseBuilderOf fakeOpts { fakeBuildImage with OS := "windows" } "some.stack.id"
        exampleLifecycle with
      Buildpacks := [exampleBuildpack], Order := fakeOpts.Config.Order,
      Stack := fakeOpts.Config.Stack,
      Layers := [Layer.buildpack "bp.one" "1.2.3" "sha256:bp-one",
        Layer.lifecycle "sha256:lifecycle", Layer.stack fakeOpts.Config.Stack,
        Layer.order fakeOpts.Config.Order],
      BuildpackLayers := [("bp.one", "1.2.3", "sha256:bp-one")], Published := false }
    (by decide) (by decide) rfl rfl rfl rfl rfl rfl
  ⟨h.1, h.2.2⟩

end pack

namespace pack

theorem Save_ok_inv (bldr final : Builder) (publish : Bool)
    (h : (Builder.Save bldr publish).2 = .ok final) :
    (validateBuilderBuildpacks bldr bldr.Buildpacks).2 = none ∧
    final = { bldr with
      Layers := buildpackLayers [] bldr.Buildpacks ++
        [Layer.lifecycle bldr.Lifecycle.DiffID, Layer.stack bldr.Stack, Layer.order bldr.Order],
      BuildpackLayers := bldr.Buildpacks.map fun bp =>
        (bp.Descriptor.Info.ID, bp.Descriptor.Info.Version, bp.DiffID),
      Published := publish } := by
  unfold Builder.Save at h
  rcases hv : validateBuilderBuildpacks bldr bldr.Buildpacks with ⟨ws, r⟩
  rw [hv] at h
  cases r with
  | some e => simp at h
  | none =>
    simp only at h
    by_cases hu : (bldr.UID == "") = true
    · rw [if_pos hu] at h
      simp at h
    · rw [if_neg hu] at h
      by_cases hg : (bldr.GID == "") = true
      · rw [if_pos hg] at h
        simp at h
      · rw [if_neg hg] at h
        simp only [Except.ok.injEq] at h
        exact ⟨rfl, h.symm⟩

theorem CreateBuilder_ok_inv (c : Client) (opts : CreateBuilderOptions) (final : Builder)
    (h : (CreateBuilder c opts).result = .ok final) :
    ValidateConfig opts.Config = none ∧ (validateRunImageConfig c opts).2 = none ∧
    ∃ base bldr, createBaseBuilder c opts = .ok base ∧
      addBuildpacksToBuilder c opts base opts.Config.Buildpacks = .ok bldr ∧
      (Builder.Save { bldr with Order := opts.Config.Order, Stack := opts.Config.Stack }
        opts.Publish).2 = .ok final := by
  unfold CreateBuilder at h
  cases h0 : ValidateConfig opts.Config with
  | some e => rw [h0] at h; simp at h
  | none =>
    rw [h0] at h
    simp only at h
    rcases hv : validateRunImageConfig c opts with ⟨ws, r⟩
    rw [hv] at h
    cases r with
    | some e => simp at h
    | none =>
      simp only at h
      cases hb : createBaseBuilder c opts with
      | error e => rw [hb] at h; simp at h
      | ok base =>
        rw [hb] at h
        simp only at h
        cases hbp : addBuildpacksToBuilder c opts base opts.Config.Buildpacks with
        | error e => rw [hbp] at h; simp at h
        | ok bldr =>
          rw [hbp] at h
          simp only at h
          exact ⟨rfl, rfl, base, bldr, rfl, hbp, h⟩

theorem lifecycleFromDownload_ok (r : Except String (Option Lifecycle)) (lifecycle : Lifecycle)
    (h : lifecycleFromDownload r = .ok lifecycle) : r = .ok (some lifecycle) := by
  unfold lifecycleFromDownload at h
  cases r with
  | error e => simp at h
  | ok o =>
    cases o with
    | none => simp at h
    | some l =>
      simp only [Except.ok.injEq] at h
      rw [h]

/-- C15, counterexample: the test "should fail when lifecycle version is not a
semver". The lifecycle section gives only the version `not-semver`, and the
downloader would return a lifecycle for
".../download/vnot-semver/lifecycle-vnot-semver+linux.x86-64.tgz", but no
lifecycle is downloaded from there: the call fails on the version. -/
theorem CreateBuilder_lifecycle_not_downloaded :
    (fakeClientWithLifecycleAt
        "https://github.com/buildpacks/lifecycle/releases/download/vnot-semver/lifecycle-vnot-semver+linux.x86-64.tgz"
        (.ok fakeBuildImage) (.ok fakeRunImage) (.ok fakeRunImageMirror) false).Download
      ("https://github.com/buildpacks/lifecycle/releases/download/v" ++ "not-semver" ++
        "/lifecycle-v" ++ "not-semver" ++ "+" ++ fakeBuildImage.OS ++ ".x86-64.tgz") =
      .ok (some exampleLifecycle) ∧
    (CreateBuilder
        (fakeClientWithLifecycleAt
          "https://github.com/buildpacks/lifecycle/releases/download/vnot-semver/lifecycle-vnot-semver+linux.x86-64.tgz"
          (.ok fakeBuildImage) (.ok fakeRunImage) (.ok fakeRunImageMirror) false)
        { fakeOpts with Config := { fakeOpts.Config with
            Lifecycle := { URI := "", Version := "not-semver" } } }).err =
      some "'lifecycle.version' must be a valid semver" :=
  ⟨rfl, by decide⟩

/-- C15, amended: let the build image be fetched, carry the stack id of the
config and be no windows image unless the experimental flag is enabled. When
the lifecycle section gives no uri and either a version `V` that is a valid
semantic version, written as the parser prints it, or no version, in which case
`V` is the default lifecycle version, the lifecycle of the builder is the one the
downloader returns for exactly
"https://github.com/buildpacks/lifecycle/releases/download/vV/lifecycle-vV+<os>.x86-64.tgz"
where `<os>` is the OS of the build image: the base builder is built from that
download, a failure of that download is the error of `CreateBuilder`, and a
builder that `CreateBuilder` returns carries the lifecycle downloaded there. -/
theorem CreateBuilder_lifecycle_download (c : Client) (opts : CreateBuilderOptions)
    (img : Image) (V : String)
    (hf : c.Fetch opts.Config.Stack.BuildImage ⟨!opts.Publish, opts.PullPolicy⟩ = .ok img)
    (hl : img.StackID = .ok opts.Config.Stack.ID)
    (hgate : img.OS = "windows" → c.experimental = true)
    (hu : opts.Config.Lifecycle.URI = "")
    (hV : (opts.Config.Lifecycle.Version ≠ "" ∧ V = opts.Config.Lifecycle.Version ∧
        c.ParseSemver V = some V) ∨
      (opts.Config.Lifecycle.Version = "" ∧ V = c.DefaultLifecycleVersion)) :
    createBaseBuilder c opts =
      (match lifecycleFromDownload
          (c.Download ("https://github.com/buildpacks/lifecycle/releases/download/v" ++ V ++
            "/lifecycle-v" ++ V ++ "+" ++ img.OS ++ ".x86-64.tgz")) with
        | .error e => .error e
        | .ok lifecycle => .ok (baseBuilderOf opts img opts.Config.Stack.ID lifecycle)) ∧
    (∀ e, ValidateConfig opts.Config = none → (validateRunImageConfig c opts).2 = none →
      c.Download ("https://github.com/buildpacks/lifecycle/releases/download/v" ++ V ++
        "/lifecycle-v" ++ V ++ "+" ++ img.OS ++ ".x86-64.tgz") = .error e →
      (CreateBuilder c opts).err = some ("downloading lifecycle: " ++ e)) ∧
    (∀ final, (CreateBuilder c opts).result = .ok final →
      c.Download ("https://github.com/buildpacks/lifecycle/releases/download/v" ++ V ++
        "/lifecycle-v" ++ V ++ "+" ++ img.OS ++ ".x86-64.tgz") = .ok (some final.Lifecycle)) := by
  have hfl : fetchLifecycle c opts.Config.Lifecycle opts.RelativeBaseDir img.OS =
      lifecycleFromDownload (c.Download (uriFromLifecycleVersion V img.OS)) := by
    apply fetchLifecycle_eq_download
    · rintro ⟨_, h⟩
      exact h hu
    · rcases hV with ⟨hne, hVeq, hp⟩ | ⟨he, hVeq⟩
      · rw [if_pos (by simpa using hne), ← hVeq, hp]
      · rw [if_neg (by simp [he]), if_neg (by simp [hu]), hVeq]
  have hbase := createBaseBuilder_of_image c opts img hf hl hgate
  rw [hfl] at hbase
  refine ⟨hbase, ?_, ?_⟩
  · intro e h0 h1 hd
    apply CreateBuilder_err_of_base c opts _ h0 h1
    have hd2 : c.Download (uriFromLifecycleVersion V img.OS) = .error e := hd
    rw [hbase, hd2]
    rfl
  · intro final hfin
    obtain ⟨_, _, base, bldr, hb, hbp, hsave⟩ := CreateBuilder_ok_inv c opts final hfin
    obtain ⟨bps, hbldr⟩ := addBuildpacksToBuilder_ok_fields c opts _ _ _ hbp
    obtain ⟨_, hfinal⟩ := Save_ok_inv _ _ _ hsave
    rw [hbase] at hb
    cases hd : lifecycleFromDownload (c.Download (uriFromLifecycleVersion V img.OS)) with
    | error e => rw [hd] at hb; simp at hb
    | ok lifecycle =>
      rw [hd] at hb
      simp only [Except.ok.injEq] at hb
      have hlcf : final.Lifecycle = lifecycle := by
        rw [hfinal, hbldr, ← hb]
        rfl
      rw [hlcf]
      exact lifecycleFromDownload_ok _ _ hd

/-- Witness of C15: the tests "only lifecycle version is provided / should
download from predetermined uri", on linux for the version 3.4.5. -/
theorem CreateBuilder_lifecycle_download_witness :
    ∃ final,
      (CreateBuilder
          (fakeClientWithLifecycleAt
            "https://github.com/buildpacks/lifecycle/releases/download/v3.4.5/lifecycle-v3.4.5+linux.x86-64.tgz"
            (.ok fakeBuildImage) (.ok fakeRunImage) (.ok fakeRunImageMirror) false)
          { fakeOpts with Config := { fakeOpts.Config with
              Lifecycle := { URI := "", Version := "3.4.5" } } }).result = .ok final ∧
      (fakeClientWithLifecycleAt
          "https://github.com/buildpacks/lifecycle/releases/download/v3.4.5/lifecycle-v3.4.5+linux.x86-64.tgz"
          (.ok fakeBuildImage) (.ok fakeRunImage) (.ok fakeRunImageMirror) false).Download
        "https://github.com/buildpacks/lifecycle/releases/download/v3.4.5/lifecycle-v3.4.5+linux.x86-64.tgz" =
        .ok (some final.Lifecycle) :=
  ⟨_, rfl,
    (CreateBuilder_lifecycle_download
      (fakeClientWithLifecycleAt
        "https://github.com/buildpacks/lifecycle/releases/download/v3.4.5/lifecycle-v3.4.5+linux.x86-64.tgz"
        (.ok fakeBuildImage) (.ok fakeRunImage) (.ok fakeRunImageMirror) false)
      { fakeOpts with Config := { fakeOpts.Config with
          Lifecycle := { URI := "", Version := "3.4.5" } } }
      fakeBuildImage "3.4.5" rfl rfl (by decide) rfl
      (Or.inl ⟨by decide, rfl, by decide⟩)).2.2 _ rfl⟩

end pack

namespace pack

theorem fetchRunImages_warnings (c : Client) (opts : CreateBuilderOptions) (names : List String)
    (h : ∀ m ∈ names, ∀ msg, fetchRunImage c opts m ≠ .failed msg) :
    (fetchRunImages c opts names).1 =
      (names.filter fun n => (fetchRunImage c opts n).isNotFound).map notAccessible := by
  induction names with
  | nil => rfl
  | cons n rest ih =>
    have ih1 := ih (fun m hm => h m (List.mem_cons_of_mem _ hm))
    have hn := h n (List.mem_cons_self _ _)
    unfold fetchRunImages
    cases hr : fetchRunImage c opts n with
    | failed msg => exact absurd hr (hn msg)
    | notFound =>
      simp only [ih1, List.filter_cons, hr, FetchResult.isNotFound, if_true, List.map_cons]
      rfl
    | ok img =>
      simp only [ih1, List.filter_cons, hr, FetchResult.isNotFound, Bool.false_eq_true, if_false]

theorem fetchRunImages_failed (c : Client) (opts : CreateBuilderOptions)
    (pre post : List String) (n msg : String)
    (hpre : ∀ m ∈ pre, ∀ e, fetchRunImage c opts m ≠ .failed e)
    (hn : fetchRunImage c opts n = .failed msg) :
    (fetchRunImages c opts (pre ++ n :: post)).2 = .error ("failed to fetch image: " ++ msg) := by
  induction pre with
  | nil => simp only [List.nil_append, fetchRunImages, hn]
  | cons a rest ih =>
    have ih1 := ih (fun m hm => hpre m (List.mem_cons_of_mem _ hm))
    have ha := hpre a (List.mem_cons_self _ _)
    rw [List.cons_append]
    unfold fetchRunImages
    cases hr : fetchRunImage c opts a with
    | failed e => exact absurd hr (ha e)
    | notFound => simp only [ih1]
    | ok img => simp only [ih1]

theorem fetchRunImage_eq_notFound_iff (c : Client) (opts : CreateBuilderOptions) (n : String) :
    fetchRunImage c opts n = .notFound ↔
      c.Fetch n ⟨false, opts.PullPolicy⟩ = .notFound ∧
      (opts.Publish = false → c.Fetch n ⟨true, opts.PullPolicy⟩ = .notFound) := by
  unfold fetchRunImage
  cases hp : opts.Publish with
  | true => simp
  | false =>
    simp only [Bool.not_false, if_true, true_implies]
    cases hd : c.Fetch n ⟨true, opts.PullPolicy⟩ with
    | ok img => simp
    | failed msg => simp
    | notFound => simp

/-- C16, counterexample: the test "should fail when not publish and the run
image cannot be fetched". The fetch of the run image fails with the error
`yikes`, which is not the not-found error, and this unfetchable run image is an
error of `CreateBuilder`, not a warning. -/
theorem CreateBuilder_run_image_fetch_error :
    (CreateBuilder (fakeClient (.ok fakeBuildImage) (.failed "yikes") (.ok fakeRunImageMirror) false)
        fakeOpts).err = some "failed to fetch image: yikes" ∧
    (CreateBuilder (fakeClient (.ok fakeBuildImage) (.failed "yikes") (.ok fakeRunImageMirror) false)
        fakeOpts).warnings = [] :=
  ⟨by decide, by decide⟩

/-- C16, amended: for a builder config that passes the required-field checks,
a run image or mirror that is not found (in the registry and, unless
publishing, in the daemon) is a warning "run image '<name>' is not accessible"
and not an error: when no fetch fails otherwise, the validation of the run
images writes exactly these warnings; when the run image and all its mirrors
are not found this validation passes, and `CreateBuilder` returns nil with
these warnings if the rest of the config is valid. A fetch that fails with
another error is not a warning: `CreateBuilder` fails with "failed to fetch
image: <error>". -/
theorem CreateBuilder_run_image_not_found (c : Client) (opts : CreateBuilderOptions)
    (h0 : ValidateConfig opts.Config = none) :
    ((∀ n ∈ opts.Config.Stack.RunImage :: opts.Config.Stack.RunImageMirrors,
        ∀ msg, fetchRunImage c opts n ≠ .failed msg) →
      (validateRunImageConfig c opts).1 =
        ((opts.Config.Stack.RunImage :: opts.Config.Stack.RunImageMirrors).filter
          fun n => (fetchRunImage c opts n).isNotFound).map notAccessible) ∧
    ((∀ n ∈ opts.Config.Stack.RunImage :: opts.Config.Stack.RunImageMirrors,
        fetchRunImage c opts n = .notFound) →
      validateRunImageConfig c opts =
        ((opts.Config.Stack.RunImage :: opts.Config.Stack.RunImageMirrors).map notAccessible,
          none) ∧
      ∀ base bldr final, createBaseBuilder c opts = .ok base →
        addBuildpacksToBuilder c opts base opts.Config.Buildpacks = .ok bldr →
        (Builder.Save { bldr with Order := opts.Config.Order, Stack := opts.Config.Stack }
          opts.Publish).2 = .ok final →
        (CreateBuilder c opts).err = none ∧
        ∀ n ∈ opts.Config.Stack.RunImage :: opts.Config.Stack.RunImageMirrors,
          notAccessible n ∈ (CreateBuilder c opts).warnings) ∧
    (∀ pre n post msg,
      opts.Config.Stack.RunImage :: opts.Config.Stack.RunImageMirrors = pre ++ n :: post →
      (∀ m ∈ pre, ∀ e, fetchRunImage c opts m ≠ .failed e) →
      fetchRunImage c opts n = .failed msg →
      (CreateBuilder c opts).err = some ("failed to fetch image: " ++ msg)) ∧
    (∀ n, fetchRunImage c opts n = .notFound ↔
      c.Fetch n ⟨false, opts.PullPolicy⟩ = .notFound ∧
      (opts.Publish = false → c.Fetch n ⟨true, opts.PullPolicy⟩ = .notFound)) := by
  have hw : (∀ n ∈ opts.Config.Stack.RunImage :: opts.Config.Stack.RunImageMirrors,
        ∀ msg, fetchRunImage c opts n ≠ .failed msg) →
      (validateRunImageConfig c opts).1 =
        ((opts.Config.Stack.RunImage :: opts.Config.Stack.RunImageMirrors).filter
          fun n => (fetchRunImage c opts n).isNotFound).map notAccessible := by
    intro h
    have h1 := fetchRunImages_warnings c opts _ h
    unfold validateRunImageConfig
    rcases hr : fetchRunImages c opts
      (opts.Config.Stack.RunImage :: opts.Config.Stack.RunImageMirrors) with ⟨ws, r⟩
    rw [hr] at h1
    cases r <;> exact h1
  refine ⟨hw, ?_, ?_, fetchRunImage_eq_notFound_iff c opts⟩
  · intro hall
    have hnf : ∀ n ∈ opts.Config.Stack.RunImage :: opts.Config.Stack.RunImageMirrors,
        ∀ msg, fetchRunImage c opts n ≠ .failed msg := by
      intro n hn msg
      rw [hall n hn]
      simp
    have hfilter : ((opts.Config.Stack.RunImage :: opts.Config.Stack.RunImageMirrors).filter
        fun n => (fetchRunImage c opts n).isNotFound) =
        opts.Config.Stack.RunImage :: opts.Config.Stack.RunImageMirrors := by
      apply List.filter_eq_self.mpr
      intro n hn
      rw [hall n hn]
      rfl
    have hfm : (opts.Config.Stack.RunImage :: opts.Config.Stack.RunImageMirrors).filterMap
        (fun m => (fetchRunImage c opts m).image) = [] := by
      apply List.filterMap_eq_nil_iff.mpr
      intro n hn
      rw [hall n hn]
      rfl
    have h2 : (validateRunImageConfig c opts).2 = none := by
      have hok := fetchRunImages_ok c opts _ hnf
      unfold validateRunImageConfig
      rcases hr : fetchRunImages c opts
        (opts.Config.Stack.RunImage :: opts.Config.Stack.RunImageMirrors) with ⟨ws, r⟩
      rw [hr] at hok
      simp only at hok
      subst hok
      simp only [hfm, validateRunImageStacks]
    have h1 := hw hnf
    rw [hfilter] at h1
    refine ⟨Prod.ext h1 h2, ?_⟩
    intro base bldr final hb hbp hsave
    obtain ⟨hres, hwarn⟩ := CreateBuilder_of_buildpacks_ok c opts base bldr h0 h2 hb hbp
    constructor
    · unfold Outcome.err
      rw [hres, hsave]
    · intro n hn
      rw [hwarn, h1]
      exact List.mem_append_left _ (List.mem_map_of_mem _ hn)
  · intro pre n post msg hnames hpre hn
    apply CreateBuilder_err_of_runImage c opts _ h0
    have hfail := fetchRunImages_failed c opts pre post n msg hpre hn
    unfold validateRunImageConfig
    rw [hnames]
    rcases hr : fetchRunImages c opts (pre ++ n :: post) with ⟨ws, r⟩
    rw [hr] at hfail
    simp only at hfail
    subst hfail
    rfl

/-- Witness of C16: the test "should warn when the run image cannot be found". -/
theorem CreateBuilder_run_image_not_found_witness :
    (CreateBuilder (fakeClient (.ok fakeBuildImage) .notFound .notFound false) fakeOpts).err =
      none ∧
    "run image 'some/run-image' is not accessible" ∈
      (CreateBuilder (fakeClient (.ok fakeBuildImage) .notFound .notFound false)
        fakeOpts).warnings :=
  have h := ((CreateBuilder_run_image_not_found
      (fakeClient (.ok fakeBuildImage) .notFound .notFound false) fakeOpts (by decide)).2.1
      (fun n hn => by
        rcases List.mem_cons.mp hn with h | h
        · rw [h]; rfl
        · rw [List.mem_singleton.mp h]; rfl)).2
    (baseBuilderOf fakeOpts fakeBuildImage "some.stack.id" exampleLifecycle)
    { baseBuilderOf fakeOpts fakeBuildImage "some.stack.id" exampleLifecycle with
      Buildpacks := [exampleBuildpack] }
    { baseBuilderOf fakeOpts fakeBuildImage "some.stack.id" exampleLifecycle with
      Buildpacks := [exampleBuildpack], Order := fakeOpts.Config.Order,
      Stack := fakeOpts.Config.Stack,
      Layers := [Layer.buildpack "bp.one" "1.2.3" "sha256:bp-one",
        Layer.lifecycle "sha256:lifecycle", Layer.stack fakeOpts.Config.Stack,
        Layer.order fakeOpts.Config.Order],
      BuildpackLayers := [("bp.one", "1.2.3", "sha256:bp-one")], Published := false }
    rfl rfl rfl
  ⟨h.1, h.2 "some/run-image" (List.mem_cons_self _ _)⟩

end pack

namespace pack

theorem buildpackLayers_nodup (l : List Buildpack) :
    ∀ seen : List String,
      ((buildpackLayers seen l).filterMap Layer.buildpackDiffID).Nodup ∧
      ∀ d ∈ (buildpackLayers seen l).filterMap Layer.buildpackDiffID, d ∉ seen := by
  induction l with
  | nil =>
    intro seen
    simp [buildpackLayers]
  | cons bp rest ih =>
    intro seen
    unfold buildpackLayers
    by_cases hs : seen.contains bp.DiffID = true
    · rw [if_pos hs]
      exact ih seen
    · rw [if_neg hs]
      obtain ⟨hnd, hnot⟩ := ih (bp.DiffID :: seen)
      have hns : bp.DiffID ∉ seen := by simpa using hs
      simp only [List.filterMap_cons, Layer.buildpackDiffID, List.nodup_cons, List.mem_cons]
      refine ⟨⟨fun hmem => ?_, hnd⟩, ?_⟩
      · exact hnot _ hmem (List.mem_cons_self _ _)
      · rintro d (hd | hd)
        · rw [hd]
          exact hns
        · exact fun hmem => hnot d hd (List.mem_cons_of_mem _ hmem)

theorem buildpackLayers_first (l : List Buildpack) (d : String) (first : Buildpack) :
    ∀ seen : List String, d ∉ seen →
      l.find? (fun b => b.DiffID == d) = some first →
      Layer.buildpack first.Descriptor.Info.ID first.Descriptor.Info.Version d ∈
        buildpackLayers seen l := by
  induction l with
  | nil =>
    intro seen _ h
    simp at h
  | cons bp rest ih =>
    intro seen hd hfind
    unfold buildpackLayers
    by_cases heq : bp.DiffID = d
    · have hb : first = bp := by
        rw [List.find?_cons_of_pos _ (by simp [heq])] at hfind
        exact (Option.some.inj hfind).symm
      have hs : ¬ (seen.contains bp.DiffID = true) := by
        rw [heq]
        simpa using hd
      rw [if_neg hs, hb, heq]
      exact List.mem_cons_self _ _
    · rw [List.find?_cons_of_neg _ (by simp [heq])] at hfind
      by_cases hs : seen.contains bp.DiffID = true
      · rw [if_pos hs]
        exact ih seen hd hfind
      · rw [if_neg hs]
        apply List.mem_cons_of_mem
        apply ih (bp.DiffID :: seen) _ hfind
        intro hmem
        rcases List.mem_cons.mp hmem with h | h
        · exact heq h.symm
        · exact hd h

theorem buildpackLayers_origin (l : List Buildpack) :
    ∀ seen : List String, ∀ layer ∈ buildpackLayers seen l,
      ∃ bp ∈ l, layer =
        Layer.buildpack bp.Descriptor.Info.ID bp.Descriptor.Info.Version bp.DiffID := by
  induction l with
  | nil =>
    intro seen layer h
    simp [buildpackLayers] at h
  | cons bp rest ih =>
    intro seen layer h
    unfold buildpackLayers at h
    by_cases hs : seen.contains bp.DiffID = true
    · rw [if_pos hs] at h
      obtain ⟨b, hb, hl⟩ := ih seen layer h
      exact ⟨b, List.mem_cons_of_mem _ hb, hl⟩
    · rw [if_neg hs] at h
      rcases List.mem_cons.mp h with h | h
      · exact ⟨bp, List.mem_cons_self _ _, h⟩
      · obtain ⟨b, hb, hl⟩ := ih _ layer h
        exact ⟨b, List.mem_cons_of_mem _ hb, hl⟩

theorem find_of_mem_diffID (l : List Buildpack) (bp : Buildpack) (h : bp ∈ l) :
    ∃ first, l.find? (fun b => b.DiffID == bp.DiffID) = some first := by
  cases hf : l.find? (fun b => b.DiffID == bp.DiffID) with
  | some first => exact ⟨first, rfl⟩
  | none =>
    have := List.find?_eq_none.mp hf bp h
    simp at this

theorem addBuildpacksToBuilder_mem (c : Client) (opts : CreateBuilderOptions)
    (l : List BuildpackConfig) :
    ∀ b b2 : Builder, addBuildpacksToBuilder c opts b l = .ok b2 →
      ∀ e ∈ l, ∃ main deps,
        c.DownloadBuildpack e.URI (downloadOptions opts b.OS e) = .ok (main, deps) ∧
        main ∈ b2.Buildpacks ∧ ∀ d ∈ deps, d ∈ b2.Buildpacks := by
  induction l with
  | nil =>
    intro b b2 _ e he
    simp at he
  | cons x rest ih =>
    intro b b2 h e he
    have hall := h
    unfold addBuildpacksToBuilder at h
    cases hd : c.DownloadBuildpack x.URI (downloadOptions opts b.OS x) with
    | error err => rw [hd] at h; simp at h
    | ok r =>
      obtain ⟨main, deps⟩ := r
      rw [hd] at h
      simp only at h
      cases hv : validateBuildpack main x.URI x.ID x.Version with
      | some err => rw [hv] at h; simp at h
      | none =>
        rw [hv] at h
        simp only at h
        obtain ⟨bps, hb2⟩ := addBuildpacksToBuilder_ok_fields c opts rest _ _ h
        rcases List.mem_cons.mp he with heq | hin
        · subst heq
          refine ⟨main, deps, hd, ?_, ?_⟩
          · rw [hb2]
            simp
          · intro d hdm
            rw [hb2]
            simp [hdm]
        · exact ih _ _ h e hin

end pack

namespace pack

/-- C17: in a builder image that `CreateBuilder` composes, no two buildpack
layers have the same DiffID. For every buildpack of the builder (every entry of
the config is downloaded as a buildpack of the builder, with its dependencies)
there is exactly one buildpack layer with its DiffID, so two buildpacks with
the same tar digest share one layer; that layer is the one of the first
buildpack, in the order of the config, with this digest; and the label
`io.buildpacks.buildpack.layers` has the entry `(id, version)` of every
buildpack, with its DiffID, which is the DiffID of a layer of the image. When
the tar of the lifecycle has another digest, the layer is also the only one
among the buildpack and lifecycle layers with this DiffID. -/
theorem CreateBuilder_no_duplicate_layers (c : Client) (opts : CreateBuilderOptions)
    (final : Builder) (h : (CreateBuilder c opts).result = .ok final) :
    (final.Layers.filterMap Layer.buildpackDiffID).Nodup ∧
    (∀ bp ∈ final.Buildpacks,
      (final.Layers.filterMap Layer.buildpackDiffID).count bp.DiffID = 1) ∧
    (∀ bp ∈ final.Buildpacks, ∀ first,
      final.Buildpacks.find? (fun b => b.DiffID == bp.DiffID) = some first →
      Layer.buildpack first.Descriptor.Info.ID first.Descriptor.Info.Version bp.DiffID ∈
        final.Layers) ∧
    (∀ bp ∈ final.Buildpacks,
      (bp.Descriptor.Info.ID, bp.Descriptor.Info.Version, bp.DiffID) ∈ final.BuildpackLayers) ∧
    (∀ entry ∈ final.BuildpackLayers,
      entry.2.2 ∈ final.Layers.filterMap Layer.buildpackDiffID) ∧
    (∀ bp1 ∈ final.Buildpacks, ∀ bp2 ∈ final.Buildpacks, bp1.DiffID = bp2.DiffID →
      (final.Layers.filterMap Layer.buildpackDiffID).count bp1.DiffID = 1 ∧
      (bp1.Descriptor.Info.ID, bp1.Descriptor.Info.Version, bp1.DiffID) ∈
        final.BuildpackLayers ∧
      (bp2.Descriptor.Info.ID, bp2.Descriptor.Info.Version, bp1.DiffID) ∈
        final.BuildpackLayers) ∧
    (∀ e ∈ opts.Config.Buildpacks, ∃ main deps,
      c.DownloadBuildpack e.URI (downloadOptions opts final.OS e) = .ok (main, deps) ∧
      main ∈ final.Buildpacks ∧ ∀ d ∈ deps, d ∈ final.Buildpacks) ∧
    (∀ bp ∈ final.Buildpacks, final.Lifecycle.DiffID ≠ bp.DiffID →
      (final.Layers.filterMap Layer.diffID).count bp.DiffID = 1) := by
  obtain ⟨_, _, base, bldr, hb, hbp, hsave⟩ := CreateBuilder_ok_inv c opts final h
  obtain ⟨_, hfinal⟩ := Save_ok_inv _ _ _ hsave
  obtain ⟨bps, hbldr⟩ := addBuildpacksToBuilder_ok_fields c opts _ _ _ hbp
  have hBps : final.Buildpacks = bldr.Buildpacks := by rw [hfinal]
  have hOS : final.OS = base.OS := by rw [hfinal, hbldr]
  have hLayers : final.Layers = buildpackLayers [] bldr.Buildpacks ++
      [Layer.lifecycle bldr.Lifecycle.DiffID, Layer.stack opts.Config.Stack,
        Layer.order opts.Config.Order] := by rw [hfinal]
  have hLabel : final.BuildpackLayers = bldr.Buildpacks.map fun bp =>
      (bp.Descriptor.Info.ID, bp.Descriptor.Info.Version, bp.DiffID) := by rw [hfinal]
  have hids : final.Layers.filterMap Layer.buildpackDiffID =
      (buildpackLayers [] bldr.Buildpacks).filterMap Layer.buildpackDiffID := by
    rw [hLayers, List.filterMap_append]
    simp [Layer.buildpackDiffID]
  have hnd := (buildpackLayers_nodup bldr.Buildpacks []).1
  have hfirst : ∀ bp ∈ bldr.Buildpacks, ∀ first,
      bldr.Buildpacks.find? (fun b => b.DiffID == bp.DiffID) = some first →
      Layer.buildpack first.Descriptor.Info.ID first.Descriptor.Info.Version bp.DiffID ∈
        buildpackLayers [] bldr.Buildpacks :=
    fun bp _ first hf => buildpackLayers_first _ _ _ [] (List.not_mem_nil _) hf
  have hmem : ∀ bp ∈ bldr.Buildpacks,
      bp.DiffID ∈ (buildpackLayers [] bldr.Buildpacks).filterMap Layer.buildpackDiffID := by
    intro bp hbpm
    obtain ⟨first, hf⟩ := find_of_mem_diffID _ bp hbpm
    exact List.mem_filterMap.mpr ⟨_, hfirst bp hbpm first hf, rfl⟩
  have hcount : ∀ bp ∈ final.Buildpacks,
      (final.Layers.filterMap Layer.buildpackDiffID).count bp.DiffID = 1 := by
    intro bp hbpm
    rw [hids]
    exact List.count_eq_one_of_mem hnd (hmem bp (hBps ▸ hbpm))
  have hlabel : ∀ bp ∈ final.Buildpacks,
      (bp.Descriptor.Info.ID, bp.Descriptor.Info.Version, bp.DiffID) ∈
        final.BuildpackLayers := by
    intro bp hbpm
    rw [hLabel]
    exact List.mem_map.mpr ⟨bp, hBps ▸ hbpm, rfl⟩
  have hLc : final.Lifecycle = bldr.Lifecycle := by rw [hfinal]
  have hall : final.Layers.filterMap Layer.diffID =
      (buildpackLayers [] bldr.Buildpacks).filterMap Layer.buildpackDiffID ++
        [bldr.Lifecycle.DiffID] := by
    rw [hLayers, List.filterMap_append]
    have hsame : ∀ l : List Layer,
        (∀ x ∈ l, ∃ a b d, x = Layer.buildpack a b d) →
        l.filterMap Layer.diffID = l.filterMap Layer.buildpackDiffID := by
      intro l hl
      apply List.filterMap_congr
      intro x hx
      obtain ⟨a, b, d, hxe⟩ := hl x hx
      rw [hxe]
      rfl
    rw [hsame _ (fun x hx => by
      obtain ⟨b, _, hb⟩ := buildpackLayers_origin _ [] x hx
      exact ⟨_, _, _, hb⟩)]
    simp [Layer.diffID]
  refine ⟨by rw [hids]; exact hnd, hcount, ?_, hlabel, ?_, ?_, ?_, ?_⟩
  · intro bp hbpm first hf
    rw [hLayers]
    rw [hBps] at hbpm hf
    exact List.mem_append_left _ (hfirst bp hbpm first hf)
  · intro entry he
    rw [hLabel] at he
    obtain ⟨bp, hbpm, hentry⟩ := List.mem_map.mp he
    rw [hids, ← hentry]
    exact hmem bp hbpm
  · intro bp1 h1 bp2 h2 heq
    refine ⟨hcount bp1 h1, hlabel bp1 h1, ?_⟩
    rw [heq]
    exact hlabel bp2 h2
  · intro e he
    obtain ⟨main, deps, hd, hm, hdeps⟩ := addBuildpacksToBuilder_mem c opts _ _ _ hbp e he
    rw [hOS, hBps]
    exact ⟨main, deps, hd, hm, hdeps⟩
  · intro bp hbpm hne
    have h1 := hcount bp hbpm
    rw [hids] at h1
    rw [hLc] at hne
    rw [hall, List.count_append, h1, List.count_singleton]
    simp [hne]

/-- Witness of C17: the config of the tests with two entries whose buildpacks,
`bp.one` and `bp.two`, have the same tar digest (spec §8, S3): the image has
the layer of `bp.one` only, and the label maps both to that digest. -/
theorem CreateBuilder_no_duplicate_layers_witness :
    ∃ final,
      (CreateBuilder
          (fakeClientWithBuildpacks
            [("https://example.fake/bp-one.tgz", exampleBuildpack),
             ("https://example.fake/bp-two.tgz",
               { exampleBuildpack with Descriptor := { exampleBuildpack.Descriptor with
                   Info := { ID := "bp.two", Version := "1.2.3" } } })]
            (.ok fakeBuildImage) (.ok fakeRunImage) (.ok fakeRunImageMirror) false)
          { fakeOpts with Config := { fakeOpts.Config with
              Buildpacks := [{ URI := "https://example.fake/bp-one.tgz" },
                             { URI := "https://example.fake/bp-two.tgz" }] } }).result =
        .ok final ∧
      final.Layers =
        [Layer.buildpack "bp.one" "1.2.3" "sha256:bp-one", Layer.lifecycle "sha256:lifecycle",
          Layer.stack fakeOpts.Config.Stack, Layer.order fakeOpts.Config.Order] ∧
      final.BuildpackLayers =
        [("bp.one", "1.2.3", "sha256:bp-one"), ("bp.two", "1.2.3", "sha256:bp-one")] ∧
      (final.Layers.filterMap Layer.buildpackDiffID).count "sha256:bp-one" = 1 :=
  ⟨_, rfl, rfl, rfl,
    (CreateBuilder_no_duplicate_layers
      (fakeClientWithBuildpacks
        [("https://example.fake/bp-one.tgz", exampleBuildpack),
         ("https://example.fake/bp-two.tgz",
           { exampleBuildpack with Descriptor := { exampleBuildpack.Descriptor with
               Info := { ID := "bp.two", Version := "1.2.3" } } })]
        (.ok fakeBuildImage) (.ok fakeRunImage) (.ok fakeRunImageMirror) false)
      { fakeOpts with Config := { fakeOpts.Config with
          Buildpacks := [{ URI := "https://example.fake/bp-one.tgz" },
                         { URI := "https://example.fake/bp-two.tgz" }] } }
      _ rfl).2.1 exampleBuildpack (List.mem_cons_self _ _)⟩

end pack

namespace filepath

theorem Ext_append_cnb (stem : String) : Ext (stem ++ ".cnb") = ".cnb" := by
  unfold Ext
  rw [String.data_append, List.reverse_append]
  rfl

end filepath

namespace pack

/-- C18: the file `buildpack package <dest> --format file` writes is named
after the extension of the destination. A destination that ends in `.cnb` is
used unchanged, without a warning; a destination with an empty extension gets
`.cnb` appended; a destination with another extension is used unchanged and one
warning about that extension is surfaced. So `package.cnb` is kept, `package`
becomes `package.cnb`, and `package.tar.gz` is kept with a warning about
`.gz`. -/
theorem packageFileName_spec (name : String) :
    (∀ stem, name = stem ++ ".cnb" → packageFileName name = (name, [])) ∧
    (filepath.Ext name = "" → packageFileName name = (name ++ ".cnb", [])) ∧
    (filepath.Ext name ≠ "" → filepath.Ext name ≠ ".cnb" →
      packageFileName name = (name, [invalidExtension (filepath.Ext name)])) ∧
    packageFileName "package.cnb" = ("package.cnb", []) ∧
    packageFileName "package" = ("package.cnb", []) ∧
    packageFileName "package.tar.gz" = ("package.tar.gz",
      ["'.gz' is not a valid extension for a packaged buildpack. " ++
        "Packaged buildpacks must have a '.cnb' extension"]) := by
  refine ⟨?_, ?_, ?_, by decide, by decide, by decide⟩
  · intro stem h
    unfold packageFileName
    rw [h, filepath.Ext_append_cnb]
    rfl
  · intro h
    unfold packageFileName
    rw [h]
    rfl
  · intro h1 h2
    unfold packageFileName
    rw [if_neg (by simpa [CNBExtension] using h2), if_neg (by simpa using h1)]

end pack
